import Mathlib

/-!
Shallow embedding of the workout core of the slipstream repository
(src/mcp/workout/models.py, state_machine.py, transitions.py, templates.py).

Modelling conventions:
- Python `datetime` values are modelled as rational timestamps (seconds).
- Python `float` values are modelled as rationals; the arithmetic the code
  performs on them (subtraction, comparison, multiplication, `round(x, 1)`)
  is exact on the values appearing in the claims.
- Python exceptions are modelled with an explicit `PyError` sum; an
  operation that can raise returns `Except PyError`.  Operations that
  mutate `self` before raising return the mutated object alongside the
  error, exactly as the Python object survives a raised exception.
- Every state-machine operation runs under `self._lock` in the source, so
  each operation is modelled as one atomic function on the machine value;
  a concurrent execution is a sequential interleaving of these atomic
  operations.
-/

/-- Python `int(x)` on a float: truncation toward zero. -/
def pyTrunc (q : ℚ) : ℤ :=
  if 0 ≤ q then ⌊q⌋ else -⌊-q⌋

/-- Python `round(x)` to an integer: round half to even. -/
def pyRoundEven (q : ℚ) : ℤ :=
  let n : ℤ := ⌊q⌋
  let frac : ℚ := q - n
  if frac < 1/2 then n
  else if 1/2 < frac then n + 1
  else if Even n then n else n + 1

/-- Python `round(x, 1)`: round to one decimal place, half to even. -/
def pyRound1 (q : ℚ) : ℚ :=
  (pyRoundEven (q * 10) : ℚ) / 10

/-- `WorkoutPhase` enum from models.py. -/
inductive WorkoutPhase where
  | no_workout
  | created
  | active
  | complete
deriving DecidableEq, Repr

/-- The `.value` string of each `WorkoutPhase` member. -/
def WorkoutPhase.value : WorkoutPhase → String
  | .no_workout => "no_workout"
  | .created => "created"
  | .active => "active"
  | .complete => "complete"

/-- `SegmentType = Literal["warmup", "work", "rest", "cooldown"]` from models.py. -/
inductive SegmentType where
  | warmup
  | work
  | rest
  | cooldown
deriving DecidableEq, Repr

/-- The string value of a `SegmentType` (the Python value is the string itself). -/
def SegmentType.str : SegmentType → String
  | .warmup => "warmup"
  | .work => "work"
  | .rest => "rest"
  | .cooldown => "cooldown"

/-- Parse a `SegmentType` string. -/
def SegmentType.parse? (s : String) : Option SegmentType :=
  if s = "warmup" then some .warmup
  else if s = "work" then some .work
  else if s = "rest" then some .rest
  else if s = "cooldown" then some .cooldown
  else none

/-- Python exceptions the embedded code can raise. -/
inductive PyError where
  | workoutExists (msg : String)
  | noWorkout (msg : String)
  | workoutAlreadyActive (msg : String)
  | workoutNotActive (msg : String)
  | indexError
  | keyError (key : String)
  | valueError
  | typeError
  | attributeError
  | osError
deriving DecidableEq, Repr

/-- `WorkoutSegment` dataclass from models.py. -/
structure WorkoutSegment where
  type : SegmentType
  target_duration_seconds : Option ℤ := none
  target_distance_m : Option ℤ := none
  target_stroke_rate : Option (ℤ × ℤ) := none
  notes : String := ""
deriving DecidableEq, Repr

/-- `Workout` dataclass from models.py.  `created_at` is a timestamp. -/
structure Workout where
  name : String
  segments : List WorkoutSegment
  workout_id : String
  created_at : ℚ
  created_by : String := "claude"
deriving DecidableEq, Repr

/-- `Workout.total_duration_seconds`: sum of defined segment durations. -/
def Workout.total_duration_seconds (w : Workout) : ℤ :=
  (w.segments.map (fun s => s.target_duration_seconds.getD 0)).sum

/-- `Workout.total_distance_m`: sum of defined segment distances. -/
def Workout.total_distance_m (w : Workout) : ℤ :=
  (w.segments.map (fun s => s.target_distance_m.getD 0)).sum

/-- `SegmentResult` dataclass from models.py. -/
structure SegmentResult where
  segment_index : ℤ
  segment_type : SegmentType
  started_at : ℚ
  ended_at : ℚ
  actual_duration_seconds : ℤ
  actual_distance_m : ℚ
  stroke_count : ℤ
  avg_stroke_rate : ℚ
  skipped : Bool := false
deriving DecidableEq, Repr

/-- `WorkoutState` dataclass from models.py. -/
structure WorkoutState where
  workout : Workout
  current_segment_idx : ℤ := 0
  segment_started_at : ℚ
  segment_stroke_count_start : ℤ := 0
  total_started_at : ℚ
  segments_completed : List SegmentResult := []
  phase : WorkoutPhase := .active
deriving DecidableEq, Repr

/-- `WorkoutState.current_segment`: `self.workout.segments[self.current_segment_idx]`.
`none` models the `IndexError` Python raises when the index is out of range.
(The index starts at 0 and is only ever incremented, so Python's negative
indexing is unreachable.) -/
def WorkoutState.current_segment? (s : WorkoutState) : Option WorkoutSegment :=
  if h : 0 ≤ s.current_segment_idx ∧ s.current_segment_idx.toNat < s.workout.segments.length
  then some (s.workout.segments.get ⟨s.current_segment_idx.toNat, h.2⟩)
  else none

/-- `WorkoutState.next_segment`: the segment at index + 1, or `none` at the end. -/
def WorkoutState.next_segment? (s : WorkoutState) : Option WorkoutSegment :=
  let next_idx := s.current_segment_idx + 1
  if h : 0 ≤ next_idx ∧ next_idx.toNat < s.workout.segments.length
  then some (s.workout.segments.get ⟨next_idx.toNat, h.2⟩)
  else none

/-- `WorkoutState.is_last_segment`: `idx >= len(segments) - 1`. -/
def WorkoutState.is_last_segment (s : WorkoutState) : Bool :=
  s.current_segment_idx ≥ (s.workout.segments.length : ℤ) - 1

/-- `WorkoutState.progress_percent`. -/
def WorkoutState.progress_percent (s : WorkoutState) : ℚ :=
  let total := s.workout.segments.length
  let completed := s.segments_completed.length
  if 0 < total then ((completed : ℚ) / (total : ℚ)) * 100 else 0

/-- A JSON-like value, the target of the `to_dict` encoders.
`jdate t` stands for the ISO-8601 string `datetime(t).isoformat()` of the
timestamp `t` (the encoder only ever produces well-formed date strings);
`jstr` covers every other string, in particular malformed date strings. -/
inductive JVal where
  | jnull
  | jbool (b : Bool)
  | jint (n : ℤ)
  | jrat (q : ℚ)
  | jstr (s : String)
  | jdate (t : ℚ)
  | jlist (xs : List JVal)
  | jobj (fields : List (String × JVal))

/-- Dictionary lookup `data[k]`: `KeyError` when the key is missing,
`TypeError` when the value is not a dict. -/
def JVal.index (v : JVal) (k : String) : Except PyError JVal :=
  match v with
  | .jobj fields =>
    match fields.lookup k with
    | some x => .ok x
    | none => .error (.keyError k)
  | _ => .error .typeError

/-- Dictionary lookup `data.get(k)`: `none` when the key is missing,
`AttributeError` when the value is not a dict. -/
def JVal.get? (v : JVal) (k : String) : Except PyError (Option JVal) :=
  match v with
  | .jobj fields => .ok (fields.lookup k)
  | _ => .error .attributeError

/-- `datetime.fromisoformat(x)`: succeeds on a well-formed date string,
raises `ValueError` on any other string, `TypeError` on a non-string. -/
def fromisoformat (v : JVal) : Except PyError ℚ :=
  match v with
  | .jdate t => .ok t
  | .jstr _ => .error .valueError
  | _ => .error .typeError

/-- `WorkoutSegment.to_dict` from models.py. -/
def WorkoutSegment.to_dict (s : WorkoutSegment) : JVal :=
  .jobj [
    ("type", .jstr s.type.str),
    ("target_duration_seconds",
      match s.target_duration_seconds with
      | some n => .jint n
      | none => .jnull),
    ("target_distance_m",
      match s.target_distance_m with
      | some n => .jint n
      | none => .jnull),
    ("target_stroke_rate",
      match s.target_stroke_rate with
      | some p => .jlist [.jint p.1, .jint p.2]
      | none => .jnull),
    ("notes", .jstr s.notes)
  ]

/-- Read an optional integer field the way the dataclass stores the result of
`data.get(k)`: a missing key or a JSON null becomes `None`.  The Python code
performs no validation at all here; a value of any other shape would be
stored as-is in the dataclass, which the typed model cannot represent, so
such ill-typed values are mapped to `TypeError` and kept out of every
theorem's scope. -/
def JVal.getOptInt (v : JVal) (k : String) : Except PyError (Option ℤ) := do
  match ← v.get? k with
  | none => .ok none
  | some .jnull => .ok none
  | some (.jint n) => .ok (some n)
  | some _ => .error .typeError

/-- `WorkoutSegment.from_dict` from models.py. -/
def WorkoutSegment.from_dict (data : JVal) : Except PyError WorkoutSegment := do
  let tv ← data.index "type"
  let ty ← match tv with
    | .jstr s =>
      match SegmentType.parse? s with
      | some t => Except.ok t
      | none => Except.error .typeError
    | _ => Except.error .typeError
  let dur ← data.getOptInt "target_duration_seconds"
  let dist ← data.getOptInt "target_distance_m"
  -- `tuple(stroke_rate) if stroke_rate else None`: None, a missing key and
  -- an empty list are all falsy and give None; a two-element list gives the
  -- pair.  Other shapes are outside the modelled domain.
  let sr ← do
    match ← data.get? "target_stroke_rate" with
    | none => Except.ok none
    | some .jnull => Except.ok none
    | some (.jlist []) => Except.ok none
    | some (.jlist [.jint a, .jint b]) => Except.ok (some (a, b))
    | some _ => Except.error .typeError
  let notes ← do
    match ← data.get? "notes" with
    | none => Except.ok ""
    | some (.jstr s) => Except.ok s
    | some _ => Except.error .typeError
  .ok {
    type := ty,
    target_duration_seconds := dur,
    target_distance_m := dist,
    target_stroke_rate := sr,
    notes := notes
  }

/-- `Workout.to_dict` from models.py. -/
def Workout.to_dict (w : Workout) : JVal :=
  .jobj [
    ("workout_id", .jstr w.workout_id),
    ("name", .jstr w.name),
    ("segments", .jlist (w.segments.map WorkoutSegment.to_dict)),
    ("created_at", .jdate w.created_at),
    ("created_by", .jstr w.created_by)
  ]

/-- Read a required string field (`data[k]` then used as a `str`). -/
def JVal.indexStr (v : JVal) (k : String) : Except PyError String := do
  match ← v.index k with
  | .jstr s => .ok s
  | _ => .error .typeError

/-- `Workout.from_dict` from models.py. -/
def Workout.from_dict (data : JVal) : Except PyError Workout := do
  let wid ← data.indexStr "workout_id"
  let name ← data.indexStr "name"
  let segsv ← data.index "segments"
  let segs ← match segsv with
    | .jlist xs => xs.mapM WorkoutSegment.from_dict
    | _ => Except.error .typeError
  let cav ← data.index "created_at"
  let ca ← fromisoformat cav
  let cb ← do
    match ← data.get? "created_by" with
    | none => Except.ok "claude"
    | some (.jstr s) => Except.ok s
    | some _ => Except.error .typeError
  .ok {
    workout_id := wid,
    name := name,
    segments := segs,
    created_at := ca,
    created_by := cb
  }

/-- `SegmentResult.to_dict` from models.py. -/
def SegmentResult.to_dict (r : SegmentResult) : JVal :=
  .jobj [
    ("segment_index", .jint r.segment_index),
    ("segment_type", .jstr r.segment_type.str),
    ("started_at", .jdate r.started_at),
    ("ended_at", .jdate r.ended_at),
    ("actual_duration_seconds", .jint r.actual_duration_seconds),
    ("actual_distance_m", .jrat r.actual_distance_m),
    ("stroke_count", .jint r.stroke_count),
    ("avg_stroke_rate", .jrat r.avg_stroke_rate),
    ("skipped", .jbool r.skipped)
  ]

/-- Modelled from the spec: the repository defines no decoder for
`SegmentResult` (models.py has only `SegmentResult.to_dict`); the spec's
round-trip property in section 4.1 requires that decoding a previously
encoded SegmentResult reproduce every field exactly, so this decoder reads
back exactly the nine fields `to_dict` writes. -/
def SegmentResult.from_dict (data : JVal) : Except PyError SegmentResult := do
  let idx ← match ← data.index "segment_index" with
    | .jint n => Except.ok n
    | _ => Except.error .typeError
  let ty ← match ← data.index "segment_type" with
    | .jstr s =>
      match SegmentType.parse? s with
      | some t => Except.ok t
      | none => Except.error .typeError
    | _ => Except.error .typeError
  let sa ← fromisoformat (← data.index "started_at")
  let ea ← fromisoformat (← data.index "ended_at")
  let adur ← match ← data.index "actual_duration_seconds" with
    | .jint n => Except.ok n
    | _ => Except.error .typeError
  let adist ← match ← data.index "actual_distance_m" with
    | .jrat q => Except.ok q
    | .jint n => Except.ok (n : ℚ)
    | _ => Except.error .typeError
  let sc ← match ← data.index "stroke_count" with
    | .jint n => Except.ok n
    | _ => Except.error .typeError
  let asr ← match ← data.index "avg_stroke_rate" with
    | .jrat q => Except.ok q
    | .jint n => Except.ok (n : ℚ)
    | _ => Except.error .typeError
  let sk ← match ← data.index "skipped" with
    | .jbool b => Except.ok b
    | _ => Except.error .typeError
  .ok {
    segment_index := idx,
    segment_type := ty,
    started_at := sa,
    ended_at := ea,
    actual_duration_seconds := adur,
    actual_distance_m := adist,
    stroke_count := sc,
    avg_stroke_rate := asr,
    skipped := sk
  }

/-- Result of `WorkoutStateMachine.create_workout`. -/
structure CreateResult where
  workout_id : String
  segments_count : ℕ
deriving DecidableEq, Repr

/-- Result of `WorkoutStateMachine.start_workout`.  The segment snapshot is
the `to_dict` form the source returns. -/
structure StartResult where
  started_at : ℚ
  first_segment : JVal
  total_segments : ℕ

/-- Result of `WorkoutStateMachine.advance_segment`. -/
structure AdvanceResult where
  completed : JVal
  workout_complete : Bool
  now_on : Option JVal

/-- Result of `WorkoutStateMachine.end_workout`. -/
structure EndSummary where
  workout_id : String
  workout_name : String
  total_duration_seconds : ℤ
  segments_completed : ℕ
  segments_total : ℕ
  segments : List JVal
  ended_early : Bool

/-- `WorkoutStateMachine` dataclass from state_machine.py.  The
`threading.Lock` field serializes the operations; in the embedding each
operation is a single atomic function on this value. -/
structure WorkoutStateMachine where
  _workout : Option Workout := none
  _state : Option WorkoutState := none
  _phase : WorkoutPhase := .no_workout
deriving DecidableEq, Repr

namespace WorkoutStateMachine

/-- The `phase` property. -/
def phase (m : WorkoutStateMachine) : WorkoutPhase := m._phase

/-- `create_workout` from state_machine.py. -/
def create_workout (m : WorkoutStateMachine) (workout : Workout) :
    WorkoutStateMachine × Except PyError CreateResult :=
  if m._phase ≠ .no_workout then
    (m, .error (.workoutExists
      ("Cannot create workout: current phase is " ++ m._phase.value)))
  else
    ({ m with _workout := some workout, _phase := .created },
     .ok { workout_id := workout.workout_id,
           segments_count := workout.segments.length })

/-- `start_workout` from state_machine.py.  `now` stands for
`datetime.now(timezone.utc)`.  Note the source mutates `self._state` and
`self._phase` before building the return dict, so the `IndexError` raised by
`current_segment` on a zero-segment workout leaves the machine mutated. -/
def start_workout (m : WorkoutStateMachine) (now : ℚ) :
    WorkoutStateMachine × Except PyError StartResult :=
  if m._phase = .no_workout then
    (m, .error (.noWorkout "No workout created to start"))
  else if m._phase = .active then
    (m, .error (.workoutAlreadyActive "Workout already active"))
  else if m._phase = .complete then
    (m, .error (.workoutAlreadyActive "Workout already complete"))
  else
    match m._workout with
    | none => (m, .error .attributeError)
    | some w =>
      let st : WorkoutState :=
        { workout := w, segment_started_at := now, total_started_at := now }
      let m' := { m with _state := some st, _phase := .active }
      match st.current_segment? with
      | none => (m', .error .indexError)
      | some seg =>
        (m', .ok { started_at := now,
                   first_segment := seg.to_dict,
                   total_segments := w.segments.length })

/-- Arguments of one `advance_segment` call; `now` stands for
`datetime.now(timezone.utc)` at the time of the call. -/
structure AdvanceArgs where
  now : ℚ
  stroke_count : ℤ := 0
  distance_m : ℚ := 0
  avg_stroke_rate : ℚ := 0
  skipped : Bool := false
deriving DecidableEq, Repr

/-- `advance_segment` from state_machine.py. -/
def advance_segment (m : WorkoutStateMachine) (a : AdvanceArgs) :
    WorkoutStateMachine × Except PyError AdvanceResult :=
  if m._phase ≠ .active then
    (m, .error (.workoutNotActive ("Cannot advance: phase is " ++ m._phase.value)))
  else
    match m._state with
    | none => (m, .error .attributeError)
    | some st =>
      match st.current_segment? with
      | none => (m, .error .indexError)
      | some seg =>
        let result : SegmentResult :=
          { segment_index := st.current_segment_idx,
            segment_type := seg.type,
            started_at := st.segment_started_at,
            ended_at := a.now,
            actual_duration_seconds := pyTrunc (a.now - st.segment_started_at),
            actual_distance_m := a.distance_m,
            stroke_count := a.stroke_count,
            avg_stroke_rate := a.avg_stroke_rate,
            skipped := a.skipped }
        let st1 := { st with segments_completed := st.segments_completed ++ [result] }
        let completed_info := result.to_dict
        if st1.is_last_segment then
          ({ m with _state := some st1, _phase := .complete },
           .ok { completed := completed_info,
                 workout_complete := true,
                 now_on := none })
        else
          let st2 := { st1 with current_segment_idx := st1.current_segment_idx + 1,
                                segment_started_at := a.now }
          match st2.current_segment? with
          | none => ({ m with _state := some st2 }, .error .indexError)
          | some seg2 =>
            ({ m with _state := some st2 },
             .ok { completed := completed_info,
                   workout_complete := false,
                   now_on := some seg2.to_dict })

/-- `skip_segment` from state_machine.py: `advance_segment(skipped=True)`. -/
def skip_segment (m : WorkoutStateMachine) (now : ℚ) :
    WorkoutStateMachine × Except PyError AdvanceResult :=
  m.advance_segment { now := now, skipped := true }

/-- `end_workout` from state_machine.py. -/
def end_workout (m : WorkoutStateMachine) (now : ℚ) :
    WorkoutStateMachine × Except PyError EndSummary :=
  if m._phase ≠ .active ∧ m._phase ≠ .complete then
    (m, .error (.workoutNotActive ("Cannot end: phase is " ++ m._phase.value)))
  else
    match m._state with
    | none => (m, .error .attributeError)
    | some st =>
      match m._workout with
      | none => (m, .error .attributeError)
      | some w =>
        let summary : EndSummary :=
          { workout_id := w.workout_id,
            workout_name := w.name,
            total_duration_seconds := pyTrunc (now - st.total_started_at),
            segments_completed := st.segments_completed.length,
            segments_total := w.segments.length,
            segments := st.segments_completed.map SegmentResult.to_dict,
            ended_early := m._phase = .active }
        ({ m with _phase := .complete }, .ok summary)

/-- `clear_workout` from state_machine.py. -/
def clear_workout (_m : WorkoutStateMachine) : WorkoutStateMachine :=
  { _workout := none, _state := none, _phase := .no_workout }

end WorkoutStateMachine

/-- One reading of the external vision signal (`VisionState` protocol in
transitions.py). -/
structure VisionState where
  is_swimming : Bool
  stroke_count : ℤ
  stroke_rate : ℚ
deriving DecidableEq, Repr

/-- Trigger names from `TRANSITION_RULES` in transitions.py. -/
inductive Trigger where
  | duration_elapsed
  | distance_reached
  | swimming_stopped
  | swimming_started
deriving DecidableEq, Repr

/-- The reason string the source returns for each trigger. -/
def Trigger.reason : Trigger → String
  | .duration_elapsed => "duration_elapsed"
  | .distance_reached => "distance_reached"
  | .swimming_stopped => "swimming_stopped"
  | .swimming_started => "swimming_started"

/-- `TRANSITION_RULES` from transitions.py: the `"triggers"` list of each
segment type, in source order. -/
def TRANSITION_RULES : SegmentType → List Trigger
  | .warmup => [.duration_elapsed, .swimming_stopped]
  | .work => [.duration_elapsed, .distance_reached, .swimming_stopped]
  | .rest => [.duration_elapsed, .swimming_started]
  | .cooldown => [.duration_elapsed, .swimming_stopped]

/-- `TransitionMonitor` dataclass from transitions.py.  The references to
the state machine and the vision store are passed to `check` explicitly;
the dataclass keeps only the configuration and the debounce bookkeeping.
`dps_r` is the source's distance-per-stroke field (default 1.8). -/
structure TransitionMonitor where
  dps_r : ℚ := 9/5
  grace_period_seconds : ℚ := 5
  swimming_debounce_seconds : ℚ := 2
  _last_swimming_state : Bool := false
  _swimming_state_changed_at : Option ℚ := none
deriving DecidableEq, Repr

/-- The metrics dict `check` builds. -/
structure Metrics where
  elapsed_seconds : ℤ
  stroke_count : ℤ
  distance_m : ℚ
  is_swimming : Bool
deriving DecidableEq, Repr

/-- The dict `check` returns; absent keys are `none`. -/
structure CheckResult where
  should_transition : Bool
  reason : Option String := none
  metrics : Option Metrics := none
deriving DecidableEq, Repr

namespace TransitionMonitor

/-- `_is_swimming_stopped_stable` from transitions.py.  The fresh
`datetime.now` read inside the method is the call time `now`.  Returns the
decision together with the updated monitor (the method mutates the two
debounce fields when the fresh reading differs from the remembered one). -/
def _is_swimming_stopped_stable (mon : TransitionMonitor) (now : ℚ)
    (is_swimming : Bool) : Bool × TransitionMonitor :=
  let mon' :=
    if is_swimming ≠ mon._last_swimming_state then
      { mon with _last_swimming_state := is_swimming,
                 _swimming_state_changed_at := some now }
    else mon
  match mon'._swimming_state_changed_at with
  | some c =>
    (!is_swimming && decide (now - c ≥ mon'.swimming_debounce_seconds), mon')
  | none => (false, mon')

/-- `_is_swimming_started_stable` from transitions.py. -/
def _is_swimming_started_stable (mon : TransitionMonitor) (now : ℚ)
    (is_swimming : Bool) : Bool × TransitionMonitor :=
  let mon' :=
    if is_swimming ≠ mon._last_swimming_state then
      { mon with _last_swimming_state := is_swimming,
                 _swimming_state_changed_at := some now }
    else mon
  match mon'._swimming_state_changed_at with
  | some c =>
    (is_swimming && decide (now - c ≥ mon'.swimming_debounce_seconds), mon')
  | none => (false, mon')

/-- `_check_trigger` from transitions.py.  `if segment.target_duration_seconds:`
and `if segment.target_distance_m:` are Python truthiness tests: `None` and
`0` are both falsy, so a target stored as `0` never enables its trigger. -/
def _check_trigger (mon : TransitionMonitor) (trigger : Trigger)
    (segment : WorkoutSegment) (elapsed : ℚ) (distance : ℚ)
    (is_swimming : Bool) (now : ℚ) : (Bool × String) × TransitionMonitor :=
  match trigger with
  | .duration_elapsed =>
    match segment.target_duration_seconds with
    | some d =>
      if d ≠ 0 ∧ elapsed ≥ (d : ℚ) then ((true, "duration_elapsed"), mon)
      else ((false, ""), mon)
    | none => ((false, ""), mon)
  | .distance_reached =>
    match segment.target_distance_m with
    | some d =>
      if d ≠ 0 ∧ distance ≥ (d : ℚ) then ((true, "distance_reached"), mon)
      else ((false, ""), mon)
    | none => ((false, ""), mon)
  | .swimming_stopped =>
    let (b, mon') := mon._is_swimming_stopped_stable now is_swimming
    if b then ((true, "swimming_stopped"), mon') else ((false, ""), mon')
  | .swimming_started =>
    let (b, mon') := mon._is_swimming_started_stable now is_swimming
    if b then ((true, "swimming_started"), mon') else ((false, ""), mon')

/-- The `for trigger in rules["triggers"]` loop inside `check`: evaluate the
triggers in order and stop at the first satisfied one. -/
def checkTriggers (mon : TransitionMonitor) (triggers : List Trigger)
    (segment : WorkoutSegment) (elapsed : ℚ) (distance : ℚ)
    (is_swimming : Bool) (now : ℚ) : Option String × TransitionMonitor :=
  match triggers with
  | [] => (none, mon)
  | t :: rest =>
    let ((fired, reason), mon') :=
      mon._check_trigger t segment elapsed distance is_swimming now
    if fired then (some reason, mon')
    else checkTriggers mon' rest segment elapsed distance is_swimming now

/-- `check` from transitions.py.  `now` is the `datetime.now` read at the
top of the call (the slightly later re-reads inside the stable helpers are
identified with it, the standard instantaneous-call idealization); `vision`
is the single `get_state()` reading.  The state machine is read but never
written, so it is a plain argument.  `none` from `current_segment` models
the uncaught `IndexError`. -/
def check (mon : TransitionMonitor) (m : WorkoutStateMachine) (now : ℚ)
    (vision : VisionState) : Except PyError (CheckResult × TransitionMonitor) :=
  if m.phase ≠ .active then
    .ok ({ should_transition := false }, mon)
  else
    match m._state with
    | none => .ok ({ should_transition := false }, mon)
    | some state =>
      match state.current_segment? with
      | none => .error .indexError
      | some segment =>
        let rules := TRANSITION_RULES segment.type
        let elapsed := now - state.segment_started_at
        if elapsed < mon.grace_period_seconds then
          .ok ({ should_transition := false, reason := some "grace_period" }, mon)
        else
          let segment_strokes := vision.stroke_count - state.segment_stroke_count_start
          let segment_distance := (segment_strokes : ℚ) * mon.dps_r
          let metrics : Metrics :=
            { elapsed_seconds := pyTrunc elapsed,
              stroke_count := segment_strokes,
              distance_m := pyRound1 segment_distance,
              is_swimming := vision.is_swimming }
          match checkTriggers mon rules segment elapsed segment_distance
              vision.is_swimming now with
          | (some reason, mon') =>
            .ok ({ should_transition := true, reason := some reason,
                   metrics := some metrics }, mon')
          | (none, mon') =>
            .ok ({ should_transition := false, metrics := some metrics }, mon')

/-- `get_metrics_for_advance` from transitions.py (the empty-dict branch for
a missing state is modelled as `none`). -/
def get_metrics_for_advance (mon : TransitionMonitor) (m : WorkoutStateMachine)
    (vision : VisionState) : Option (ℤ × ℚ × ℚ) :=
  match m._state with
  | none => none
  | some state =>
    let segment_strokes := vision.stroke_count - state.segment_stroke_count_start
    some (segment_strokes, pyRound1 ((segment_strokes : ℚ) * mon.dps_r),
          vision.stroke_rate)

end TransitionMonitor

/-- One directory entry seen by `TemplateStorage` (templates.py): a file the
glob returns.  `notJson` is a file whose contents `json.load` rejects
(raising `json.JSONDecodeError`); `unreadable` is a file `open` cannot read
(raising `OSError`); `jsonFile v` is a file parsing to the JSON value `v`. -/
inductive TemplateFile where
  | notJson (raw : String)
  | unreadable
  | jsonFile (v : JVal)

namespace TemplateStorage

/-- Processing of one file inside `TemplateStorage.list`: the `try` body
runs `json.load` then `Workout.from_dict`; only `json.JSONDecodeError` and
`KeyError` are caught by the `except` clause and skip the file; every other
exception (OSError from `open`, ValueError from `fromisoformat`, ...)
propagates out of `list`. -/
def listOne (f : TemplateFile) : Except PyError (Option Workout) :=
  match f with
  | .notJson _ => .ok none
  | .unreadable => .error .osError
  | .jsonFile v =>
    match Workout.from_dict v with
    | .ok w => .ok (some w)
    | .error (.keyError _) => .ok none
    | .error e => .error e

/-- The Python `list.sort(key=lambda w: w.created_at, reverse=True)` call:
Python's sort is stable, and a stable sort is extensionally unique, so a
stable insertion sort gives the same list.  `insertDesc` inserts behind
every earlier workout whose key is `≥` (later elements come after ties). -/
def insertDesc (sorted : List Workout) (x : Workout) : List Workout :=
  match sorted with
  | [] => [x]
  | y :: ys =>
    if y.created_at ≥ x.created_at then y :: insertDesc ys x
    else x :: y :: ys

/-- Stable sort by `created_at`, newest first. -/
def sortDesc (ws : List Workout) : List Workout :=
  ws.foldl insertDesc []

/-- `TemplateStorage.list` from templates.py over the directory `files`
(in glob order). -/
def list (files : List TemplateFile) (limit : ℕ := 10) :
    Except PyError (List Workout) := do
  let templates ← files.foldlM
    (fun acc f => do
      match ← listOne f with
      | some w => pure (acc ++ [w])
      | none => pure acc)
    ([] : List Workout)
  .ok ((sortDesc templates).take limit)

/-- Processing of one file inside `TemplateStorage.get`: `json.load`, then
the `data.get("workout_id") == workout_id` comparison, and only on a match
`Workout.from_dict`.  Returns `some w` when this file matches and decodes. -/
def getOne (f : TemplateFile) (workout_id : String) :
    Except PyError (Option Workout) :=
  match f with
  | .notJson _ => .ok none
  | .unreadable => .error .osError
  | .jsonFile v =>
    match v.get? "workout_id" with
    | .error e => .error e
    | .ok idv =>
      -- Python `==` between the stored value and the id string: true only
      -- when the stored value is that very string.
      match idv with
      | some (.jstr s) =>
        if s = workout_id then
          match Workout.from_dict v with
          | .ok w => .ok (some w)
          | .error (.keyError _) => .ok none
          | .error e => .error e
        else .ok none
      | _ => .ok none

/-- `TemplateStorage.get` from templates.py: scan the directory in glob
order, return the first matching decodable workout, `none` when no file
matches. -/
def get (files : List TemplateFile) (workout_id : String) :
    Except PyError (Option Workout) :=
  match files with
  | [] => .ok none
  | f :: rest =>
    match getOne f workout_id with
    | .error e => .error e
    | .ok (some w) => .ok (some w)
    | .ok none => get rest workout_id

end TemplateStorage

/-- A sequence of `check()` calls from the caller-driven poll loop: each
call has a call time and the vision reading `get_state()` returns during
it.  The state machine is not advanced in between (the sequences the claims
quantify over stay inside one segment), so it is a fixed argument. -/
def runChecks (mon : TransitionMonitor) (m : WorkoutStateMachine) :
    List (ℚ × VisionState) → Except PyError (List CheckResult × TransitionMonitor)
  | [] => .ok ([], mon)
  | (t, v) :: rest => do
    let (r, mon') ← TransitionMonitor.check mon m t v
    let (rs, monF) ← runChecks mon' m rest
    .ok (r :: rs, monF)

/-- A sequence of `advance_segment` calls.  Because every call holds the
machine's single lock for its whole read-decide-mutate-return section, any
set of concurrent calls executes as such a sequence (in the order the lock
is granted); the argument list is that serialization order. -/
def advanceRun (m : WorkoutStateMachine) :
    List WorkoutStateMachine.AdvanceArgs →
    WorkoutStateMachine × List (Except PyError AdvanceResult)
  | [] => (m, [])
  | a :: rest =>
    let step := m.advance_segment a
    let tail := advanceRun step.1 rest
    (tail.1, step.2 :: tail.2)

/-- One state-machine operation with its arguments, for stating properties
uniformly over the five lifecycle operations. -/
inductive Op where
  | createOp (w : Workout)
  | startOp (now : ℚ)
  | advanceOp (a : WorkoutStateMachine.AdvanceArgs)
  | skipOp (now : ℚ)
  | endOp (now : ℚ)

/-- The value a state-machine operation returns. -/
inductive OpResult where
  | created (r : CreateResult)
  | started (r : StartResult)
  | advanced (r : AdvanceResult)
  | ended (r : EndSummary)

/-- Apply one operation to the machine. -/
def applyOp (m : WorkoutStateMachine) : Op → WorkoutStateMachine × Except PyError OpResult
  | .createOp w =>
    let p := m.create_workout w
    (p.1, p.2.map .created)
  | .startOp now =>
    let p := m.start_workout now
    (p.1, p.2.map .started)
  | .advanceOp a =>
    let p := m.advance_segment a
    (p.1, p.2.map .advanced)
  | .skipOp now =>
    let p := m.skip_segment now
    (p.1, p.2.map .advanced)
  | .endOp now =>
    let p := m.end_workout now
    (p.1, p.2.map .ended)

/-- The four typed domain errors of the state machine's protocol. -/
def PyError.isDomainError : PyError → Bool
  | .workoutExists _ => true
  | .noWorkout _ => true
  | .workoutAlreadyActive _ => true
  | .workoutNotActive _ => true
  | _ => false

/-- The duration-trigger condition of `_check_trigger` as a Boolean:
a present, non-zero (truthy) target with `elapsed >= target`. -/
def durationSat (seg : WorkoutSegment) (e : ℚ) : Bool :=
  match seg.target_duration_seconds with
  | some d => decide (d ≠ 0 ∧ e ≥ (d : ℚ))
  | none => false

/-- The distance-trigger condition of `_check_trigger` as a Boolean. -/
def distanceSat (seg : WorkoutSegment) (dist : ℚ) : Bool :=
  match seg.target_distance_m with
  | some d => decide (d ≠ 0 ∧ dist ≥ (d : ℚ))
  | none => false

/-- The workouts decodable from the JSON entries of a directory, in
directory order. -/
def decodedValids (files : List TemplateFile) : List Workout :=
  files.filterMap (fun f => match f with
    | .jsonFile v => (Workout.from_dict v).toOption
    | _ => none)

/-! ## Theorems -/

theorem segment_from_to_dict (s : WorkoutSegment) :
    WorkoutSegment.from_dict s.to_dict = .ok s := by
  obtain ⟨ty, dur, dist, sr, notes⟩ := s
  cases ty <;> cases dur <;> cases dist <;> rcases sr with _ | ⟨a, b⟩ <;> rfl

theorem segments_mapM_loop_from_to (ss : List WorkoutSegment) : ∀ acc,
    List.mapM.loop WorkoutSegment.from_dict (ss.map WorkoutSegment.to_dict) acc
      = .ok (acc.reverse ++ ss) := by
  induction ss with
  | nil => intro acc; simp [List.mapM.loop]; rfl
  | cons s rest ih =>
    intro acc
    simp [List.mapM.loop, segment_from_to_dict, ih, bind, Except.bind]

theorem workout_from_to_dict (w : Workout) :
    Workout.from_dict w.to_dict = .ok w := by
  obtain ⟨name, segments, wid, ca, cb⟩ := w
  simp [Workout.to_dict, Workout.from_dict, JVal.index, JVal.indexStr,
    JVal.get?, fromisoformat, List.lookup, segments_mapM_loop_from_to,
    Except.bind, bind, pure]

theorem segment_result_from_to_dict (r : SegmentResult) :
    SegmentResult.from_dict r.to_dict = .ok r := by
  obtain ⟨idx, ty, sa, ea, adur, adist, sc, asr, sk⟩ := r
  cases ty <;> cases sk <;> rfl

/-- C7: decoding an encoded `WorkoutSegment`, `Workout` or `SegmentResult`
reproduces every field exactly — absent and present optional targets stay
distinct, the stroke-rate pair decodes to the same ordered pair, and every
`SegmentResult` field round-trips (the `SegmentResult` decoder is modelled
from the spec, the source providing only the encoder). -/
theorem claim_C7_roundtrip :
    (∀ s : WorkoutSegment, WorkoutSegment.from_dict s.to_dict = .ok s) ∧
    (∀ w : Workout, Workout.from_dict w.to_dict = .ok w) ∧
    (∀ r : SegmentResult, SegmentResult.from_dict r.to_dict = .ok r) :=
  ⟨segment_from_to_dict, workout_from_to_dict, segment_result_from_to_dict⟩

theorem stopped_stable_initial (mon : TransitionMonitor) (t : ℚ)
    (h1 : mon._last_swimming_state = false)
    (h2 : mon._swimming_state_changed_at = none) :
    mon._is_swimming_stopped_stable t false = (false, mon) := by
  simp [TransitionMonitor._is_swimming_stopped_stable, h1, h2]

theorem started_stable_false_obs (mon : TransitionMonitor) (t : ℚ)
    (h1 : mon._last_swimming_state = false) :
    mon._is_swimming_started_stable t false = (false, mon) := by
  unfold TransitionMonitor._is_swimming_started_stable
  simp only [h1]
  cases h : mon._swimming_state_changed_at <;> simp [h]

theorem checkTriggers_initial_no_stop (ts : List Trigger)
    (mon : TransitionMonitor) (seg : WorkoutSegment) (elapsed dist t : ℚ)
    (h1 : mon._last_swimming_state = false)
    (h2 : mon._swimming_state_changed_at = none) :
    (TransitionMonitor.checkTriggers mon ts seg elapsed dist false t).2 = mon ∧
    (TransitionMonitor.checkTriggers mon ts seg elapsed dist false t).1 ≠
      some "swimming_stopped" := by
  induction ts with
  | nil => simp [TransitionMonitor.checkTriggers]
  | cons t' rest ih =>
    cases t' with
    | duration_elapsed =>
      rcases hd : seg.target_duration_seconds with _ | d <;>
        simp only [TransitionMonitor.checkTriggers, TransitionMonitor._check_trigger, hd] <;>
        [skip; split] <;> simp [ih]
    | distance_reached =>
      rcases hd : seg.target_distance_m with _ | d <;>
        simp only [TransitionMonitor.checkTriggers, TransitionMonitor._check_trigger, hd] <;>
        [skip; split] <;> simp [ih]
    | swimming_stopped =>
      simp only [TransitionMonitor.checkTriggers, TransitionMonitor._check_trigger,
        stopped_stable_initial mon t h1 h2]
      simp [ih]
    | swimming_started =>
      simp only [TransitionMonitor.checkTriggers, TransitionMonitor._check_trigger,
        started_stable_false_obs mon t h1]
      simp [ih]

theorem check_initial_no_stop (mon : TransitionMonitor) (m : WorkoutStateMachine)
    (t : ℚ) (v : VisionState) (res : CheckResult) (mon' : TransitionMonitor)
    (h1 : mon._last_swimming_state = false)
    (h2 : mon._swimming_state_changed_at = none)
    (hv : v.is_swimming = false)
    (hok : TransitionMonitor.check mon m t v = .ok (res, mon')) :
    res.reason ≠ some "swimming_stopped" ∧ mon' = mon := by
  unfold TransitionMonitor.check at hok
  split at hok
  · simp only [Except.ok.injEq, Prod.mk.injEq] at hok
    rcases hok with ⟨hr, hm⟩
    subst hr hm
    simp
  · split at hok
    · simp only [Except.ok.injEq, Prod.mk.injEq] at hok
      rcases hok with ⟨hr, hm⟩
      subst hr hm
      simp
    · rename_i state heq
      split at hok
      · exact absurd hok (by simp)
      · rename_i segment hseg
        dsimp only at hok
        split at hok
        · simp only [Except.ok.injEq, Prod.mk.injEq] at hok
          rcases hok with ⟨hr, hm⟩
          subst hr hm
          simp
        · have hct := checkTriggers_initial_no_stop
            (TRANSITION_RULES segment.type) mon segment
            (t - state.segment_started_at)
            ((↑(v.stroke_count - state.segment_stroke_count_start) : ℚ) * mon.dps_r)
            t h1 h2
          rw [hv] at hok
          split at hok
          · rename_i reason monOut hmatch
            simp only [Except.ok.injEq, Prod.mk.injEq] at hok
            rcases hok with ⟨hr, hm⟩
            subst hr hm
            rw [hmatch] at hct
            constructor
            · simpa using hct.2
            · exact hct.1
          · rename_i monOut hmatch
            simp only [Except.ok.injEq, Prod.mk.injEq] at hok
            rcases hok with ⟨hr, hm⟩
            subst hr hm
            rw [hmatch] at hct
            constructor
            · simp
            · exact hct.1

theorem runChecks_cons_ok (mon : TransitionMonitor) (m : WorkoutStateMachine)
    (t : ℚ) (v : VisionState) (rest : List (ℚ × VisionState))
    (results : List CheckResult) (monF : TransitionMonitor)
    (h : runChecks mon m ((t, v) :: rest) = .ok (results, monF)) :
    ∃ r0 mon1 rs, TransitionMonitor.check mon m t v = .ok (r0, mon1) ∧
      runChecks mon1 m rest = .ok (rs, monF) ∧ results = r0 :: rs := by
  simp only [runChecks, bind, Except.bind] at h
  rcases hchk : TransitionMonitor.check mon m t v with e | ⟨r0, mon1⟩ <;>
    rw [hchk] at h
  · cases h
  · dsimp only at h
    rcases hrest : runChecks mon1 m rest with e | ⟨rs, monF'⟩ <;>
      rw [hrest] at h
    · cases h
    · dsimp only at h
      simp only [Except.ok.injEq, Prod.mk.injEq] at h
      exact ⟨r0, mon1, rs, rfl, by rw [hrest, h.2], h.1.symm⟩

/-- C10: a monitor whose every reading since construction reported
`is_swimming == false` (the remembered value still `false`, no change
timestamp ever recorded, as at construction) never reports
`should_transition` with reason `"swimming_stopped"`, however long the
run of checks is. -/
theorem claim_C10_never_stopped_without_swim (mon : TransitionMonitor)
    (m : WorkoutStateMachine) (calls : List (ℚ × VisionState))
    (results : List CheckResult) (monF : TransitionMonitor)
    (h1 : mon._last_swimming_state = false)
    (h2 : mon._swimming_state_changed_at = none)
    (hv : ∀ c ∈ calls, (c.2).is_swimming = false)
    (hok : runChecks mon m calls = .ok (results, monF)) :
    ∀ r ∈ results, ¬(r.should_transition = true ∧ r.reason = some "swimming_stopped") := by
  induction calls generalizing mon results with
  | nil =>
    simp only [runChecks, Except.ok.injEq, Prod.mk.injEq] at hok
    rcases hok with ⟨hr, _⟩
    subst hr
    simp
  | cons c rest ih =>
    obtain ⟨t, v⟩ := c
    obtain ⟨r0, mon1, rs, hchk, hrest, hres⟩ :=
      runChecks_cons_ok mon m t v rest results monF hok
    subst hres
    have hfirst := check_initial_no_stop mon m t v r0 mon1 h1 h2
      (hv (t, v) (by simp)) hchk
    intro r hr
    rcases List.mem_cons.mp hr with rfl | hmem
    · intro hcon
      exact hfirst.1 hcon.2
    · rw [hfirst.2] at hrest
      exact ih _ _ h1 h2 (fun c hc => hv c (List.mem_cons_of_mem _ hc)) hrest r hmem

/-- Witness for C10 at a concrete run: a fresh monitor against an active
one-segment workout, checks at 10, 20 and 200 seconds, all reading
`is_swimming = false`; the run succeeds and no result reports
`"swimming_stopped"`. -/
theorem claim_C10_witness :
    runChecks {}
        ⟨none, some ⟨⟨"w", [⟨.warmup, none, none, none, ""⟩], "wkt_1", 0, "claude"⟩,
                     0, 0, 0, 0, [], .active⟩, .active⟩
        [(10, ⟨false, 0, 0⟩), (20, ⟨false, 0, 0⟩), (200, ⟨false, 0, 0⟩)]
      = .ok ([⟨false, none, some ⟨10, 0, 0, false⟩⟩,
              ⟨false, none, some ⟨20, 0, 0, false⟩⟩,
              ⟨false, none, some ⟨200, 0, 0, false⟩⟩], ({} : TransitionMonitor)) ∧
    ∀ r ∈ [(⟨false, none, some ⟨10, 0, 0, false⟩⟩ : CheckResult),
           ⟨false, none, some ⟨20, 0, 0, false⟩⟩,
           ⟨false, none, some ⟨200, 0, 0, false⟩⟩],
      ¬(r.should_transition = true ∧ r.reason = some "swimming_stopped") :=
  ⟨by with_unfolding_all rfl,
    claim_C10_never_stopped_without_swim {}
      ⟨none, some ⟨⟨"w", [⟨.warmup, none, none, none, ""⟩], "wkt_1", 0, "claude"⟩,
                   0, 0, 0, 0, [], .active⟩, .active⟩
      [(10, ⟨false, 0, 0⟩), (20, ⟨false, 0, 0⟩), (200, ⟨false, 0, 0⟩)]
      [⟨false, none, some ⟨10, 0, 0, false⟩⟩,
       ⟨false, none, some ⟨20, 0, 0, false⟩⟩,
       ⟨false, none, some ⟨200, 0, 0, false⟩⟩] {}
      rfl rfl (by decide) (by with_unfolding_all rfl)⟩

theorem Except.map_eq_error {ε α β : Type} (f : α → β) (x : Except ε α) (e : ε)
    (h : x.map f = .error e) : x = .error e := by
  cases x with
  | ok a => simp [Except.map] at h
  | error e' => simpa [Except.map] using h

theorem create_workout_error_unchanged (m : WorkoutStateMachine) (w : Workout)
    (m' : WorkoutStateMachine) (e : PyError)
    (h : m.create_workout w = (m', .error e)) : m' = m := by
  unfold WorkoutStateMachine.create_workout at h
  split at h
  · injection h with h1 h2
    exact h1.symm
  · injection h with h1 h2
    exact absurd h2 (by simp)

theorem start_workout_error_unchanged (m : WorkoutStateMachine) (now : ℚ)
    (m' : WorkoutStateMachine) (e : PyError)
    (h : m.start_workout now = (m', .error e))
    (hdom : e.isDomainError = true) : m' = m := by
  unfold WorkoutStateMachine.start_workout at h
  split at h
  · injection h with h1 h2
    exact h1.symm
  · split at h
    · injection h with h1 h2
      exact h1.symm
    · split at h
      · injection h with h1 h2
        exact h1.symm
      · split at h
        · injection h with h1 h2
          injection h2 with h3
          subst h3
          simp [PyError.isDomainError] at hdom
        · dsimp only at h
          split at h
          · injection h with h1 h2
            injection h2 with h3
            subst h3
            simp [PyError.isDomainError] at hdom
          · injection h with h1 h2
            exact absurd h2 (by simp)

theorem advance_segment_error_unchanged (m : WorkoutStateMachine)
    (a : WorkoutStateMachine.AdvanceArgs)
    (m' : WorkoutStateMachine) (e : PyError)
    (h : m.advance_segment a = (m', .error e))
    (hdom : e.isDomainError = true) : m' = m := by
  unfold WorkoutStateMachine.advance_segment at h
  split at h
  · injection h with h1 h2
    exact h1.symm
  · split at h
    · injection h with h1 h2
      exact h1.symm
    · split at h
      · injection h with h1 h2
        exact h1.symm
      · dsimp only at h
        split at h
        · injection h with h1 h2
          exact absurd h2 (by simp)
        · split at h
          · injection h with h1 h2
            injection h2 with h3
            subst h3
            simp [PyError.isDomainError] at hdom
          · injection h with h1 h2
            exact absurd h2 (by simp)

theorem end_workout_error_unchanged (m : WorkoutStateMachine) (now : ℚ)
    (m' : WorkoutStateMachine) (e : PyError)
    (h : m.end_workout now = (m', .error e)) : m' = m := by
  unfold WorkoutStateMachine.end_workout at h
  split at h
  · injection h with h1 h2
    exact h1.symm
  · split at h
    · injection h with h1 h2
      exact h1.symm
    · split at h
      · injection h with h1 h2
        exact h1.symm
      · injection h with h1 h2
        exact absurd h2 (by simp)

/-- C9: whenever one of the five lifecycle operations fails with one of the
four typed domain errors (its phase precondition failing), the machine is
left exactly as it was: the phase check happens before any mutation.  (The
non-domain `IndexError` escaping `start_workout` on a zero-segment workout
does mutate the machine; the claim and this theorem are about the four
domain errors only.) -/
theorem claim_C9_no_mutation_on_domain_error (m : WorkoutStateMachine)
    (op : Op) (m' : WorkoutStateMachine) (e : PyError)
    (herr : applyOp m op = (m', .error e))
    (hdom : e.isDomainError = true) : m' = m := by
  cases op with
  | createOp w =>
    rcases hp : m.create_workout w with ⟨m2, r2⟩
    dsimp only [applyOp] at herr
    rw [hp] at herr
    injection herr with h1 h2
    have he : r2 = .error e := Except.map_eq_error OpResult.created r2 e h2
    exact h1 ▸ create_workout_error_unchanged m w m2 e (by rw [hp, he])
  | startOp now =>
    rcases hp : m.start_workout now with ⟨m2, r2⟩
    dsimp only [applyOp] at herr
    rw [hp] at herr
    injection herr with h1 h2
    have he : r2 = .error e := Except.map_eq_error OpResult.started r2 e h2
    exact h1 ▸ start_workout_error_unchanged m now m2 e (by rw [hp, he]) hdom
  | advanceOp a =>
    rcases hp : m.advance_segment a with ⟨m2, r2⟩
    dsimp only [applyOp] at herr
    rw [hp] at herr
    injection herr with h1 h2
    have he : r2 = .error e := Except.map_eq_error OpResult.advanced r2 e h2
    exact h1 ▸ advance_segment_error_unchanged m a m2 e (by rw [hp, he]) hdom
  | skipOp now =>
    rcases hp : m.advance_segment { now := now, skipped := true } with ⟨m2, r2⟩
    dsimp only [applyOp, WorkoutStateMachine.skip_segment] at herr
    rw [hp] at herr
    injection herr with h1 h2
    have he : r2 = .error e := Except.map_eq_error OpResult.advanced r2 e h2
    exact h1 ▸ advance_segment_error_unchanged m { now := now, skipped := true } m2 e
      (by rw [hp, he]) hdom
  | endOp now =>
    rcases hp : m.end_workout now with ⟨m2, r2⟩
    dsimp only [applyOp] at herr
    rw [hp] at herr
    injection herr with h1 h2
    have he : r2 = .error e := Except.map_eq_error OpResult.ended r2 e h2
    exact h1 ▸ end_workout_error_unchanged m now m2 e (by rw [hp, he])

/-- Witness for C9: `advance_segment` on a fresh machine raises the
not-active domain error and leaves the machine untouched. -/
theorem claim_C9_witness :
    (⟨none, none, .no_workout⟩ : WorkoutStateMachine) = ⟨none, none, .no_workout⟩ ∧
    applyOp ⟨none, none, .no_workout⟩ (.advanceOp ⟨5, 0, 0, 0, false⟩)
      = (⟨none, none, .no_workout⟩,
         .error (.workoutNotActive "Cannot advance: phase is no_workout")) :=
  ⟨claim_C9_no_mutation_on_domain_error ⟨none, none, .no_workout⟩
      (.advanceOp ⟨5, 0, 0, 0, false⟩) ⟨none, none, .no_workout⟩
      (.workoutNotActive "Cannot advance: phase is no_workout")
      (by with_unfolding_all rfl) (by decide),
   by with_unfolding_all rfl⟩

/-- C5 counterexample: for the zero-segment workout, `create_workout`
succeeds but `start_workout` does not succeed — it raises `IndexError`
(while building the first-segment snapshot, `segments[0]` on an empty
list), contradicting the claim that both succeed. -/
theorem claim_C5_counterexample :
    (((⟨none, none, .no_workout⟩ : WorkoutStateMachine).create_workout
        ⟨"empty", [], "wkt_e", 0, "claude"⟩).2
      = .ok ⟨"wkt_e", 0⟩) ∧
    (((⟨some ⟨"empty", [], "wkt_e", 0, "claude"⟩, none, .created⟩ :
        WorkoutStateMachine).start_workout 5).2 = .error .indexError) ∧
    ∀ r : StartResult,
      ((⟨some ⟨"empty", [], "wkt_e", 0, "claude"⟩, none, .created⟩ :
        WorkoutStateMachine).start_workout 5).2 ≠ .ok r := by
  refine ⟨by with_unfolding_all rfl, by with_unfolding_all rfl, ?_⟩
  intro r h
  rw [show ((⟨some ⟨"empty", [], "wkt_e", 0, "claude"⟩, none, .created⟩ :
      WorkoutStateMachine).start_workout 5).2 = .error .indexError from
    by with_unfolding_all rfl] at h
  cases h

/-- C5 amended: for the zero-segment workout, `create_workout` succeeds,
but `start_workout` raises `IndexError` while building the first-segment
snapshot — after having already set the state and phase ACTIVE — and every
subsequent `advance_segment` also raises `IndexError` before recording
anything, so the workout never completes. -/
theorem claim_C5_amended_empty_workout :
    ((⟨none, none, .no_workout⟩ : WorkoutStateMachine).create_workout
        ⟨"empty", [], "wkt_e", 0, "claude"⟩)
      = (⟨some ⟨"empty", [], "wkt_e", 0, "claude"⟩, none, .created⟩,
         .ok ⟨"wkt_e", 0⟩) ∧
    ((⟨some ⟨"empty", [], "wkt_e", 0, "claude"⟩, none, .created⟩ :
        WorkoutStateMachine).start_workout 5)
      = (⟨some ⟨"empty", [], "wkt_e", 0, "claude"⟩,
          some ⟨⟨"empty", [], "wkt_e", 0, "claude"⟩, 0, 5, 0, 5, [], .active⟩,
          .active⟩,
         .error .indexError) ∧
    ((⟨some ⟨"empty", [], "wkt_e", 0, "claude"⟩,
        some ⟨⟨"empty", [], "wkt_e", 0, "claude"⟩, 0, 5, 0, 5, [], .active⟩,
        .active⟩ : WorkoutStateMachine).advance_segment ⟨7, 0, 0, 0, false⟩)
      = (⟨some ⟨"empty", [], "wkt_e", 0, "claude"⟩,
          some ⟨⟨"empty", [], "wkt_e", 0, "claude"⟩, 0, 5, 0, 5, [], .active⟩,
          .active⟩,
         .error .indexError) :=
  ⟨by with_unfolding_all rfl, by with_unfolding_all rfl,
   by with_unfolding_all rfl⟩

theorem check_active_eq (mon : TransitionMonitor) (m : WorkoutStateMachine)
    (now : ℚ) (v : VisionState) (st : WorkoutState) (seg : WorkoutSegment)
    (hph : m._phase = .active) (hst : m._state = some st)
    (hseg : st.current_segment? = some seg)
    (hgrace : ¬(now - st.segment_started_at < mon.grace_period_seconds)) :
    TransitionMonitor.check mon m now v =
      match TransitionMonitor.checkTriggers mon (TRANSITION_RULES seg.type) seg
          (now - st.segment_started_at)
          ((↑(v.stroke_count - st.segment_stroke_count_start) : ℚ) * mon.dps_r)
          v.is_swimming now with
      | (some reason, mon') =>
        .ok ({ should_transition := true, reason := some reason,
               metrics := some
                 { elapsed_seconds := pyTrunc (now - st.segment_started_at),
                   stroke_count := v.stroke_count - st.segment_stroke_count_start,
                   distance_m := pyRound1
                     ((↑(v.stroke_count - st.segment_stroke_count_start) : ℚ) * mon.dps_r),
                   is_swimming := v.is_swimming } }, mon')
      | (none, mon') =>
        .ok ({ should_transition := false, reason := none,
               metrics := some
                 { elapsed_seconds := pyTrunc (now - st.segment_started_at),
                   stroke_count := v.stroke_count - st.segment_stroke_count_start,
                   distance_m := pyRound1
                     ((↑(v.stroke_count - st.segment_stroke_count_start) : ℚ) * mon.dps_r),
                   is_swimming := v.is_swimming } }, mon') := by
  have h1 : m.phase = WorkoutPhase.active := by
    simp [WorkoutStateMachine.phase, hph]
  unfold TransitionMonitor.check
  rw [h1, if_neg (by simp : ¬(WorkoutPhase.active ≠ WorkoutPhase.active)), hst]
  dsimp only
  rw [hseg]
  dsimp only
  rw [if_neg hgrace]

theorem checkTriggers_duration_head (mon : TransitionMonitor)
    (seg : WorkoutSegment) (e dist : ℚ) (sw : Bool) (now : ℚ)
    (tail : List Trigger) (d : ℤ)
    (hdur : seg.target_duration_seconds = some d) :
    TransitionMonitor.checkTriggers mon (.duration_elapsed :: tail) seg e dist sw now
      = if d ≠ 0 ∧ e ≥ (d : ℚ) then (some "duration_elapsed", mon)
        else TransitionMonitor.checkTriggers mon tail seg e dist sw now := by
  simp only [TransitionMonitor.checkTriggers, TransitionMonitor._check_trigger, hdur]
  split <;> simp

theorem checkTriggers_no_duration_reason (ts : List Trigger)
    (hts : Trigger.duration_elapsed ∉ ts) (mon : TransitionMonitor)
    (seg : WorkoutSegment) (e dist : ℚ) (sw : Bool) (now : ℚ) :
    (TransitionMonitor.checkTriggers mon ts seg e dist sw now).1 ≠
      some "duration_elapsed" := by
  induction ts generalizing mon with
  | nil => simp [TransitionMonitor.checkTriggers]
  | cons t rest ih =>
    have hrest : Trigger.duration_elapsed ∉ rest := fun h => hts (List.mem_cons_of_mem _ h)
    cases t with
    | duration_elapsed => exact absurd (List.mem_cons_self _ _) hts
    | distance_reached =>
      rcases hd : seg.target_distance_m with _ | dd <;>
        simp only [TransitionMonitor.checkTriggers, TransitionMonitor._check_trigger, hd]
      · exact ih hrest mon
      · split
        · simp
        · exact ih hrest mon
    | swimming_stopped =>
      rcases hs : mon._is_swimming_stopped_stable now sw with ⟨b, mon'⟩
      simp only [TransitionMonitor.checkTriggers, TransitionMonitor._check_trigger, hs]
      cases b with
      | true => simp
      | false => simpa using ih hrest mon'
    | swimming_started =>
      rcases hs : mon._is_swimming_started_stable now sw with ⟨b, mon'⟩
      simp only [TransitionMonitor.checkTriggers, TransitionMonitor._check_trigger, hs]
      cases b with
      | true => simp
      | false => simpa using ih hrest mon'

theorem TRANSITION_RULES_head (ty : SegmentType) :
    TRANSITION_RULES ty = .duration_elapsed :: (TRANSITION_RULES ty).tail ∧
    Trigger.duration_elapsed ∉ (TRANSITION_RULES ty).tail := by
  cases ty <;> exact ⟨rfl, by decide⟩

/-- C3 amended: for an ACTIVE workout whose current segment has a positive
`target_duration_seconds` (a value of 0 is falsy in the source's
`if segment.target_duration_seconds:` test and behaves as an absent target),
a `check()` at or past the grace period reports `should_transition` with
reason `"duration_elapsed"` exactly when `elapsed >= target`; duration is
the first trigger evaluated for every segment kind, so no other trigger
pre-empts it. -/
theorem claim_C3_amended_duration_iff (mon : TransitionMonitor)
    (m : WorkoutStateMachine) (now : ℚ) (v : VisionState)
    (st : WorkoutState) (seg : WorkoutSegment) (d : ℤ)
    (hph : m._phase = .active) (hst : m._state = some st)
    (hseg : st.current_segment? = some seg)
    (hdur : seg.target_duration_seconds = some d) (hdpos : 0 < d)
    (hgrace : mon.grace_period_seconds ≤ now - st.segment_started_at)
    (res : CheckResult) (mon' : TransitionMonitor)
    (hok : TransitionMonitor.check mon m now v = .ok (res, mon')) :
    (res.should_transition = true ∧ res.reason = some "duration_elapsed")
      ↔ (d : ℚ) ≤ now - st.segment_started_at := by
  rw [check_active_eq mon m now v st seg hph hst hseg (not_lt.mpr hgrace)] at hok
  obtain ⟨hhead, htail⟩ := TRANSITION_RULES_head seg.type
  rw [hhead, checkTriggers_duration_head mon seg _ _ _ _ _ d hdur] at hok
  have hdne : d ≠ 0 := by omega
  by_cases hc : (d : ℚ) ≤ now - st.segment_started_at
  · rw [if_pos ⟨hdne, hc⟩] at hok
    simp only [Except.ok.injEq, Prod.mk.injEq] at hok
    rcases hok with ⟨hr, _⟩
    subst hr
    simpa using hc
  · rw [if_neg (fun h => hc h.2)] at hok
    have hnd := checkTriggers_no_duration_reason (TRANSITION_RULES seg.type).tail
      htail mon seg (now - st.segment_started_at)
      ((↑(v.stroke_count - st.segment_stroke_count_start) : ℚ) * mon.dps_r)
      v.is_swimming now
    constructor
    · intro hcon
      rcases hmm : TransitionMonitor.checkTriggers mon (TRANSITION_RULES seg.type).tail
          seg (now - st.segment_started_at)
          ((↑(v.stroke_count - st.segment_stroke_count_start) : ℚ) * mon.dps_r)
          v.is_swimming now with ⟨or, mon2⟩
      rw [hmm] at hok hnd
      cases or with
      | none =>
        simp only [Except.ok.injEq, Prod.mk.injEq] at hok
        rcases hok with ⟨hr, _⟩
        subst hr
        simp at hcon
      | some r =>
        simp only [Except.ok.injEq, Prod.mk.injEq] at hok
        rcases hok with ⟨hr, _⟩
        subst hr
        simp only at hcon
        rw [hcon.2] at hnd
        simp at hnd
    · intro hcon
      exact absurd hcon hc

/-- C3 counterexample: a warmup segment with `target_duration_seconds = 0`
(present, and non-negative) on an ACTIVE workout, `grace_period_seconds = 0`
and elapsed = 10 ≥ 0 = target: the claim demands
`should_transition == true` with reason `"duration_elapsed"`, but the check
returns `should_transition == false` — the source's truthiness test
`if segment.target_duration_seconds:` treats the stored 0 as absent. -/
theorem claim_C3_counterexample :
    ((⟨.warmup, some 0, none, none, ""⟩ : WorkoutSegment).target_duration_seconds
      = some 0) ∧
    ((0 : ℚ) ≤ (10 : ℚ) - 0) ∧
    (((0 : ℤ) : ℚ) ≤ (10 : ℚ) - 0) ∧
    TransitionMonitor.check ⟨9/5, 0, 2, false, none⟩
        ⟨none, some ⟨⟨"w", [⟨.warmup, some 0, none, none, ""⟩], "wkt_3", 0, "claude"⟩,
                     0, 0, 0, 0, [], .active⟩, .active⟩
        10 ⟨false, 0, 0⟩
      = .ok (⟨false, none, some ⟨10, 0, 0, false⟩⟩, ⟨9/5, 0, 2, false, none⟩) :=
  ⟨rfl, by norm_num, by norm_num, by with_unfolding_all rfl⟩

/-- Witness for the amended C3 at the spec's own example: target 60 s,
grace 0, elapsed 60 — `check()` reports `"duration_elapsed"`, and the iff
instantiates to a true equivalence. -/
theorem claim_C3_witness :
    (((⟨true, some "duration_elapsed", some ⟨60, 0, 0, false⟩⟩ : CheckResult).should_transition = true ∧
      (⟨true, some "duration_elapsed", some ⟨60, 0, 0, false⟩⟩ : CheckResult).reason
        = some "duration_elapsed")
      ↔ ((60 : ℤ) : ℚ) ≤ (60 : ℚ) - 0) :=
  claim_C3_amended_duration_iff ⟨9/5, 0, 2, false, none⟩
    ⟨none, some ⟨⟨"w", [⟨.warmup, some 60, none, none, ""⟩], "wkt_3w", 0, "claude"⟩,
                 0, 0, 0, 0, [], .active⟩, .active⟩
    60 ⟨false, 0, 0⟩
    ⟨⟨"w", [⟨.warmup, some 60, none, none, ""⟩], "wkt_3w", 0, "claude"⟩,
     0, 0, 0, 0, [], .active⟩
    ⟨.warmup, some 60, none, none, ""⟩ 60
    rfl rfl (by with_unfolding_all rfl) rfl (by decide) (by norm_num)
    ⟨true, some "duration_elapsed", some ⟨60, 0, 0, false⟩⟩
    ⟨9/5, 0, 2, false, none⟩
    (by with_unfolding_all rfl)

theorem check_trigger_fired_reason (mon : TransitionMonitor) (t : Trigger)
    (seg : WorkoutSegment) (e dist : ℚ) (sw : Bool) (now : ℚ)
    (h : (mon._check_trigger t seg e dist sw now).1.1 = true) :
    (mon._check_trigger t seg e dist sw now).1.2 = t.reason := by
  cases t with
  | duration_elapsed =>
    rcases hd : seg.target_duration_seconds with _ | dd <;>
      simp only [TransitionMonitor._check_trigger, hd] at h ⊢
    · cases h
    · by_cases hc : dd ≠ 0 ∧ e ≥ (dd : ℚ)
      · simp [hc, Trigger.reason]
      · simp [hc] at h
  | distance_reached =>
    rcases hd : seg.target_distance_m with _ | dd <;>
      simp only [TransitionMonitor._check_trigger, hd] at h ⊢
    · cases h
    · by_cases hc : dd ≠ 0 ∧ dist ≥ (dd : ℚ)
      · simp [hc, Trigger.reason]
      · simp [hc] at h
  | swimming_stopped =>
    rcases hs : mon._is_swimming_stopped_stable now sw with ⟨b, mon'⟩
    simp only [TransitionMonitor._check_trigger, hs] at h ⊢
    cases b with
    | true => simp [Trigger.reason]
    | false => simp at h
  | swimming_started =>
    rcases hs : mon._is_swimming_started_stable now sw with ⟨b, mon'⟩
    simp only [TransitionMonitor._check_trigger, hs] at h ⊢
    cases b with
    | true => simp [Trigger.reason]
    | false => simp at h

theorem check_trigger_keeps_mon (mon : TransitionMonitor) (t : Trigger)
    (seg : WorkoutSegment) (e dist : ℚ) (sw : Bool) (now : ℚ)
    (ht : t = .duration_elapsed ∨ t = .distance_reached) :
    (mon._check_trigger t seg e dist sw now).2 = mon := by
  rcases ht with rfl | rfl
  · rcases hd : seg.target_duration_seconds with _ | dd <;>
      simp only [TransitionMonitor._check_trigger, hd]
    split <;> rfl
  · rcases hd : seg.target_distance_m with _ | dd <;>
      simp only [TransitionMonitor._check_trigger, hd]
    split <;> rfl

theorem checkTriggers_cons_eq (mon : TransitionMonitor) (t : Trigger)
    (ts : List Trigger) (seg : WorkoutSegment) (e dist : ℚ) (sw : Bool) (now : ℚ) :
    TransitionMonitor.checkTriggers mon (t :: ts) seg e dist sw now
      = if (mon._check_trigger t seg e dist sw now).1.1 = true
        then (some (mon._check_trigger t seg e dist sw now).1.2,
              (mon._check_trigger t seg e dist sw now).2)
        else TransitionMonitor.checkTriggers
              ((mon._check_trigger t seg e dist sw now).2) ts seg e dist sw now := by
  simp only [TransitionMonitor.checkTriggers]

theorem checkTriggers_eq_find (ts : List Trigger) (mon : TransitionMonitor)
    (seg : WorkoutSegment) (e dist : ℚ) (sw : Bool) (now : ℚ)
    (hlast : ∀ t ∈ ts.dropLast, t = .duration_elapsed ∨ t = .distance_reached) :
    (TransitionMonitor.checkTriggers mon ts seg e dist sw now).1
      = (ts.find? (fun t => (mon._check_trigger t seg e dist sw now).1.1)).map
          Trigger.reason := by
  induction ts with
  | nil => simp [TransitionMonitor.checkTriggers]
  | cons t rest ih =>
    rw [checkTriggers_cons_eq, List.find?_cons]
    by_cases hf : (mon._check_trigger t seg e dist sw now).1.1 = true
    · simp [hf, check_trigger_fired_reason mon t seg e dist sw now hf]
    · cases rest with
      | nil =>
        simp [hf, TransitionMonitor.checkTriggers]
      | cons r rs =>
        have ht : t = .duration_elapsed ∨ t = .distance_reached := by
          apply hlast
          simp [List.dropLast]
        rw [check_trigger_keeps_mon mon t seg e dist sw now ht]
        simp only [hf, if_false]
        exact ih (fun x hx => hlast x (by
          rw [List.dropLast_cons_of_ne_nil (by simp)]
          exact List.mem_cons_of_mem _ hx))

theorem TRANSITION_RULES_dropLast (ty : SegmentType) :
    ∀ t ∈ (TRANSITION_RULES ty).dropLast,
      t = .duration_elapsed ∨ t = .distance_reached := by
  cases ty <;> decide

/-- C6: when a `check()` past the grace period finds two or more eligible
triggers of the current segment kind satisfied at once, the reported reason
is the first satisfied trigger in the fixed `TRANSITION_RULES` table order
(first-match wins). -/
theorem claim_C6_first_match_wins (mon : TransitionMonitor)
    (m : WorkoutStateMachine) (now : ℚ) (v : VisionState)
    (st : WorkoutState) (seg : WorkoutSegment)
    (hph : m._phase = .active) (hst : m._state = some st)
    (hseg : st.current_segment? = some seg)
    (hgrace : mon.grace_period_seconds ≤ now - st.segment_started_at)
    (t1 t2 : Trigger)
    (ht1 : t1 ∈ TRANSITION_RULES seg.type) (ht2 : t2 ∈ TRANSITION_RULES seg.type)
    (hne : t1 ≠ t2)
    (hs1 : (mon._check_trigger t1 seg (now - st.segment_started_at)
        ((↑(v.stroke_count - st.segment_stroke_count_start) : ℚ) * mon.dps_r)
        v.is_swimming now).1.1 = true)
    (hs2 : (mon._check_trigger t2 seg (now - st.segment_started_at)
        ((↑(v.stroke_count - st.segment_stroke_count_start) : ℚ) * mon.dps_r)
        v.is_swimming now).1.1 = true)
    (res : CheckResult) (mon' : TransitionMonitor)
    (hok : TransitionMonitor.check mon m now v = .ok (res, mon')) :
    res.should_transition = true ∧
    res.reason = ((TRANSITION_RULES seg.type).find?
        (fun t => (mon._check_trigger t seg (now - st.segment_started_at)
          ((↑(v.stroke_count - st.segment_stroke_count_start) : ℚ) * mon.dps_r)
          v.is_swimming now).1.1)).map Trigger.reason := by
  rw [check_active_eq mon m now v st seg hph hst hseg (not_lt.mpr hgrace)] at hok
  have hfind := checkTriggers_eq_find (TRANSITION_RULES seg.type) mon seg
    (now - st.segment_started_at)
    ((↑(v.stroke_count - st.segment_stroke_count_start) : ℚ) * mon.dps_r)
    v.is_swimming now (TRANSITION_RULES_dropLast seg.type)
  rcases hct : TransitionMonitor.checkTriggers mon (TRANSITION_RULES seg.type) seg
      (now - st.segment_started_at)
      ((↑(v.stroke_count - st.segment_stroke_count_start) : ℚ) * mon.dps_r)
      v.is_swimming now with ⟨or, mon2⟩
  rw [hct] at hok hfind
  cases or with
  | some r =>
    simp only [Except.ok.injEq, Prod.mk.injEq] at hok
    rcases hok with ⟨hr, _⟩
    subst hr
    exact ⟨rfl, hfind⟩
  | none =>
    exfalso
    rcases hopt : ((TRANSITION_RULES seg.type).find?
        (fun t => (mon._check_trigger t seg (now - st.segment_started_at)
          ((↑(v.stroke_count - st.segment_stroke_count_start) : ℚ) * mon.dps_r)
          v.is_swimming now).1.1)) with _ | tf
    · exact absurd hs1 (by simpa using List.find?_eq_none.mp hopt t1 ht1)
    · rw [hopt] at hfind
      simp at hfind

/-- Witness for C6 at the claim's own instance: a work segment whose
duration target (60 s) and distance target (100 m) are both satisfied
(elapsed 80 s, 60 strokes at dps 1.8 = 108 m); the reported reason is
`"duration_elapsed"`, the first trigger in the work table order. -/
theorem claim_C6_witness :
    ((⟨true, some "duration_elapsed", some ⟨80, 60, 108, true⟩⟩ : CheckResult).should_transition
        = true) ∧
    ((⟨true, some "duration_elapsed", some ⟨80, 60, 108, true⟩⟩ : CheckResult).reason
      = ((TRANSITION_RULES SegmentType.work).find?
          (fun t => ((⟨9/5, 0, 2, true, some 0⟩ : TransitionMonitor)._check_trigger t
            ⟨.work, some 60, some 100, none, ""⟩ ((80 : ℚ) - 0)
            ((↑((60 : ℤ) - 0) : ℚ) * (9/5 : ℚ)) true 80).1.1)).map Trigger.reason) :=
  claim_C6_first_match_wins ⟨9/5, 0, 2, true, some 0⟩
    ⟨none, some ⟨⟨"w", [⟨.work, some 60, some 100, none, ""⟩], "wkt_6", 0, "claude"⟩,
                 0, 0, 0, 0, [], .active⟩, .active⟩
    80 ⟨true, 60, 30⟩
    ⟨⟨"w", [⟨.work, some 60, some 100, none, ""⟩], "wkt_6", 0, "claude"⟩,
     0, 0, 0, 0, [], .active⟩
    ⟨.work, some 60, some 100, none, ""⟩
    rfl rfl (by with_unfolding_all rfl) (by norm_num)
    .duration_elapsed .distance_reached
    (by decide) (by decide) (by decide)
    (by with_unfolding_all rfl) (by with_unfolding_all rfl)
    ⟨true, some "duration_elapsed", some ⟨80, 60, 108, true⟩⟩
    ⟨9/5, 0, 2, true, some 0⟩
    (by with_unfolding_all rfl)

theorem current_segment_eq_get? (s : WorkoutState) (h : 0 ≤ s.current_segment_idx) :
    s.current_segment? = s.workout.segments.get? s.current_segment_idx.toNat := by
  unfold WorkoutState.current_segment?
  rcases Nat.lt_or_ge s.current_segment_idx.toNat s.workout.segments.length with hlt | hge
  · rw [dif_pos ⟨h, hlt⟩, List.get?_eq_get hlt]
  · rw [dif_neg (by omega), List.get?_eq_none.mpr hge]

theorem advance_nonlast (m : WorkoutStateMachine) (st : WorkoutState) (k : ℕ)
    (seg seg2 : WorkoutSegment) (a : WorkoutStateMachine.AdvanceArgs)
    (hph : m._phase = .active) (hst : m._state = some st)
    (hidx : st.current_segment_idx = (k : ℤ))
    (hsegk : st.workout.segments.get? k = some seg)
    (hk1 : k + 1 < st.workout.segments.length)
    (hseg2 : st.workout.segments.get? (k + 1) = some seg2) :
    m.advance_segment a =
      (⟨m._workout,
        some ⟨st.workout, st.current_segment_idx + 1, a.now,
              st.segment_stroke_count_start, st.total_started_at,
              st.segments_completed ++
                [⟨st.current_segment_idx, seg.type, st.segment_started_at, a.now,
                  pyTrunc (a.now - st.segment_started_at), a.distance_m,
                  a.stroke_count, a.avg_stroke_rate, a.skipped⟩],
              st.phase⟩,
        m._phase⟩,
       .ok ⟨(⟨st.current_segment_idx, seg.type, st.segment_started_at, a.now,
              pyTrunc (a.now - st.segment_started_at), a.distance_m,
              a.stroke_count, a.avg_stroke_rate, a.skipped⟩ : SegmentResult).to_dict,
             false, some seg2.to_dict⟩) := by
  have hcs : st.current_segment? = some seg := by
    rw [current_segment_eq_get? st (by rw [hidx]; exact Int.ofNat_nonneg k), hidx,
      Int.toNat_ofNat]
    exact hsegk
  unfold WorkoutStateMachine.advance_segment
  rw [hph, if_neg (by simp : ¬(WorkoutPhase.active ≠ WorkoutPhase.active)), hst]
  dsimp only
  rw [hcs]
  dsimp only
  rw [if_neg (by
    simp only [WorkoutState.is_last_segment, hidx, ge_iff_le, decide_eq_true_eq]
    push_cast
    omega)]
  rw [show (⟨st.workout, st.current_segment_idx + 1, a.now,
        st.segment_stroke_count_start, st.total_started_at,
        st.segments_completed ++
          [⟨st.current_segment_idx, seg.type, st.segment_started_at, a.now,
            pyTrunc (a.now - st.segment_started_at), a.distance_m,
            a.stroke_count, a.avg_stroke_rate, a.skipped⟩],
        st.phase⟩ : WorkoutState).current_segment? = some seg2 from by
    rw [current_segment_eq_get? _ (by dsimp only; rw [hidx]; omega)]
    dsimp only
    rw [hidx, show ((k : ℤ) + 1).toNat = k + 1 by omega]
    exact hseg2]

theorem advance_last (m : WorkoutStateMachine) (st : WorkoutState) (k : ℕ)
    (seg : WorkoutSegment) (a : WorkoutStateMachine.AdvanceArgs)
    (hph : m._phase = .active) (hst : m._state = some st)
    (hidx : st.current_segment_idx = (k : ℤ))
    (hsegk : st.workout.segments.get? k = some seg)
    (hlast : st.workout.segments.length = k + 1) :
    m.advance_segment a =
      (⟨m._workout,
        some ⟨st.workout, st.current_segment_idx, st.segment_started_at,
              st.segment_stroke_count_start, st.total_started_at,
              st.segments_completed ++
                [⟨st.current_segment_idx, seg.type, st.segment_started_at, a.now,
                  pyTrunc (a.now - st.segment_started_at), a.distance_m,
                  a.stroke_count, a.avg_stroke_rate, a.skipped⟩],
              st.phase⟩,
        .complete⟩,
       .ok ⟨(⟨st.current_segment_idx, seg.type, st.segment_started_at, a.now,
              pyTrunc (a.now - st.segment_started_at), a.distance_m,
              a.stroke_count, a.avg_stroke_rate, a.skipped⟩ : SegmentResult).to_dict,
             true, none⟩) := by
  have hcs : st.current_segment? = some seg := by
    rw [current_segment_eq_get? st (by rw [hidx]; exact Int.ofNat_nonneg k), hidx,
      Int.toNat_ofNat]
    exact hsegk
  unfold WorkoutStateMachine.advance_segment
  rw [hph, if_neg (by simp : ¬(WorkoutPhase.active ≠ WorkoutPhase.active)), hst]
  dsimp only
  rw [hcs]
  dsimp only
  rw [if_pos (by
    simp only [WorkoutState.is_last_segment, hidx, ge_iff_le, decide_eq_true_eq]
    omega)]

theorem advance_complete_error (m : WorkoutStateMachine)
    (a : WorkoutStateMachine.AdvanceArgs) (h : m._phase = .complete) :
    m.advance_segment a =
      (m, .error (.workoutNotActive "Cannot advance: phase is complete")) := by
  unfold WorkoutStateMachine.advance_segment
  rw [h, if_pos (by simp)]
  rfl

theorem advance_nonlast_spec (m : WorkoutStateMachine) (st : WorkoutState) (k : ℕ)
    (seg seg2 : WorkoutSegment) (a : WorkoutStateMachine.AdvanceArgs)
    (hph : m._phase = .active) (hst : m._state = some st)
    (hidx : st.current_segment_idx = (k : ℤ))
    (hsegk : st.workout.segments.get? k = some seg)
    (hk1 : k + 1 < st.workout.segments.length)
    (hseg2 : st.workout.segments.get? (k + 1) = some seg2) :
    ∃ st1 r0, m.advance_segment a = (⟨m._workout, some st1, m._phase⟩, .ok r0) ∧
      r0.workout_complete = false ∧ r0.now_on = some seg2.to_dict ∧
      st1.workout = st.workout ∧
      st1.current_segment_idx = st.current_segment_idx + 1 ∧
      st1.segment_started_at = a.now ∧
      st1.segments_completed.map SegmentResult.segment_index
        = st.segments_completed.map SegmentResult.segment_index
          ++ [st.current_segment_idx] := by
  refine ⟨_, _, advance_nonlast m st k seg seg2 a hph hst hidx hsegk hk1 hseg2,
    rfl, rfl, rfl, rfl, rfl, ?_⟩
  simp

theorem advance_last_spec (m : WorkoutStateMachine) (st : WorkoutState) (k : ℕ)
    (seg : WorkoutSegment) (a : WorkoutStateMachine.AdvanceArgs)
    (hph : m._phase = .active) (hst : m._state = some st)
    (hidx : st.current_segment_idx = (k : ℤ))
    (hsegk : st.workout.segments.get? k = some seg)
    (hlast : st.workout.segments.length = k + 1) :
    ∃ st1 r0, m.advance_segment a = (⟨m._workout, some st1, .complete⟩, .ok r0) ∧
      r0.workout_complete = true ∧ r0.now_on = none ∧
      st1.workout = st.workout ∧
      st1.segments_completed.map SegmentResult.segment_index
        = st.segments_completed.map SegmentResult.segment_index
          ++ [st.current_segment_idx] := by
  refine ⟨_, _, advance_last m st k seg a hph hst hidx hsegk hlast,
    rfl, rfl, rfl, ?_⟩
  simp

theorem advanceRun_spec (w : Workout) (N : ℕ) (hNlen : w.segments.length = N)
    (calls : List WorkoutStateMachine.AdvanceArgs) :
    ∀ (k : ℕ) (m : WorkoutStateMachine) (st : WorkoutState),
      m._phase = .active → m._state = some st → st.workout = w →
      st.current_segment_idx = (k : ℤ) → k < N → k + calls.length ≤ N →
      (∀ i, i < calls.length →
        ∃ r, (advanceRun m calls).2.get? i = some (.ok r) ∧
          r.workout_complete = decide (k + i + 1 = N) ∧
          r.now_on = (w.segments.get? (k + i + 1)).map WorkoutSegment.to_dict) ∧
      ((advanceRun m calls).1._workout = m._workout) ∧
      (∃ stF, (advanceRun m calls).1._state = some stF ∧ stF.workout = w ∧
        stF.segments_completed.map SegmentResult.segment_index
          = st.segments_completed.map SegmentResult.segment_index
            ++ (List.range' k calls.length).map Int.ofNat ∧
        (k + calls.length < N →
          stF.current_segment_idx = ((k + calls.length : ℕ) : ℤ) ∧
          (∀ a, calls.getLast? = some a → stF.segment_started_at = a.now) ∧
          (calls = [] → stF.segment_started_at = st.segment_started_at))) ∧
      (k + calls.length = N → (advanceRun m calls).1._phase = .complete) ∧
      (k + calls.length < N → (advanceRun m calls).1._phase = .active) := by
  induction calls with
  | nil =>
    intro k m st hph hst hw hidx hkN _
    refine ⟨by simp, rfl, ⟨st, hst, hw, by simp, ?_⟩, ?_, fun _ => hph⟩
    · exact fun _ => ⟨by simpa using hidx, by simp, fun _ => rfl⟩
    · intro h
      exact absurd h (by simp; omega)
  | cons a rest ih =>
    intro k m st hph hst hw hidx hkN hlen
    have hsegk : w.segments.get? k = some (w.segments.get ⟨k, hNlen ▸ hkN⟩) :=
      List.get?_eq_get (hNlen ▸ hkN)
    by_cases hk1 : k + 1 = N
    · -- last segment: the remaining calls are exactly [a]
      have hrest : rest = [] := by
        have : rest.length = 0 := by simp at hlen; omega
        exact List.length_eq_zero.mp this
      subst hrest
      obtain ⟨st1, r0, hstep, hwc, hnow, hw1, hmap1⟩ :=
        advance_last_spec m st k _ a hph hst hidx (by rw [hw]; exact hsegk)
          (by rw [hw, hNlen]; omega)
      refine ⟨?_, ?_, ?_, ?_, ?_⟩
      · intro i hi
        have hi0 : i = 0 := by simpa using hi
        subst hi0
        refine ⟨r0, ?_, ?_, ?_⟩
        · simp [advanceRun, hstep]
        · simp [hwc, hk1]
        · rw [hnow, show k + 0 + 1 = N by omega,
            List.get?_eq_none.mpr (by omega)]
          simp
      · simp [advanceRun, hstep]
      · refine ⟨st1, by simp [advanceRun, hstep], by rw [hw1, hw], ?_, ?_⟩
        · rw [hmap1, hidx]
          simp [List.range']
        · intro h
          simp at h
          omega
      · intro _
        simp [advanceRun, hstep]
      · intro h
        simp at h
        omega
    · -- not the last segment
      have hk1' : k + 1 < N := by omega
      have hseg2 : w.segments.get? (k + 1) = some (w.segments.get ⟨k + 1, hNlen ▸ hk1'⟩) :=
        List.get?_eq_get (hNlen ▸ hk1')
      obtain ⟨st1, r0, hstep, hwc, hnow, hw1, hidx1, hstart1, hmap1⟩ :=
        advance_nonlast_spec m st k _ _ a hph hst hidx (by rw [hw]; exact hsegk)
          (by rw [hw, hNlen]; omega) (by rw [hw]; exact hseg2)
      have hih := ih (k + 1) ⟨m._workout, some st1, m._phase⟩ st1
        (by simpa using hph) rfl (by rw [hw1, hw])
        (by rw [hidx1, hidx]; push_cast; ring) hk1'
        (by simp at hlen ⊢; omega)
      obtain ⟨hres, hwkt, ⟨stF, hstF, hwF, hmapF, hactF⟩, hcomp, hact⟩ := hih
      refine ⟨?_, ?_, ?_, ?_, ?_⟩
      · intro i hi
        cases i with
        | zero =>
          refine ⟨r0, ?_, ?_, ?_⟩
          · simp [advanceRun, hstep]
          · rw [hwc, decide_eq_false (by omega : ¬(k + 0 + 1 = N))]
          · rw [show k + 0 + 1 = k + 1 by omega, hnow, hseg2]
            rfl
        | succ j =>
          obtain ⟨r, hr, hrwc, hrnow⟩ := hres j (by simpa using hi)
          refine ⟨r, ?_, ?_, ?_⟩
          · rw [← hr]
            simp [advanceRun, hstep]
          · rw [show k + (j + 1) + 1 = k + 1 + j + 1 by omega]
            exact hrwc
          · rw [show k + (j + 1) + 1 = k + 1 + j + 1 by omega]
            exact hrnow
      · simp [advanceRun, hstep, hwkt]
      · refine ⟨stF, by simpa [advanceRun, hstep] using hstF, hwF, ?_, ?_⟩
        · rw [hmapF, hmap1, hidx]
          simp [List.range']
        · intro hlt
          have hlt' : k + 1 + rest.length < N := by simp at hlt ⊢; omega
          obtain ⟨hidxF, hlastF, hnilF⟩ := hactF hlt'
          refine ⟨by rw [hidxF]; congr 1; simp; omega, ?_, by simp⟩
          intro b hb
          cases rest with
          | nil =>
            simp at hb
            subst hb
            rw [hnilF rfl, hstart1]
          | cons c cs =>
            exact hlastF b (by simpa using hb)
      · intro hN
        have := hcomp (by simp at hN ⊢; omega)
        simpa [advanceRun, hstep] using this
      · intro hN
        have := hact (by simp at hN ⊢; omega)
        simpa [advanceRun, hstep] using this

/-- C1: starting from a freshly started workout (ACTIVE, index 0, no
completed segments) with `N ≥ 1` segments, any `N` successive
`advance_segment` calls all succeed; each of the first `N-1` returns
`workout_complete = false` with `now_on` the new current segment's
snapshot and leaves the machine ACTIVE at the incremented index with
`segment_started_at` set to the call time; the `N`-th returns
`workout_complete = true` with `now_on = none` and leaves phase COMPLETE;
afterwards `segments_completed` carries exactly the indices `0..N-1` in
order, and any further `advance_segment` raises the not-active error. -/
theorem claim_C1_full_run (m : WorkoutStateMachine) (st : WorkoutState)
    (w : Workout) (N : ℕ) (calls : List WorkoutStateMachine.AdvanceArgs)
    (hph : m._phase = .active) (hst : m._state = some st)
    (hw : st.workout = w) (hidx : st.current_segment_idx = 0)
    (hdone : st.segments_completed = [])
    (hNlen : w.segments.length = N) (hN1 : 1 ≤ N)
    (hcalls : calls.length = N) :
    (∀ i, i + 1 < N →
      ∃ r, (advanceRun m calls).2.get? i = some (.ok r) ∧
        r.workout_complete = false ∧
        r.now_on = (w.segments.get? (i + 1)).map WorkoutSegment.to_dict) ∧
    (∃ r, (advanceRun m calls).2.get? (N - 1) = some (.ok r) ∧
      r.workout_complete = true ∧ r.now_on = none) ∧
    (∀ i, i + 1 < N →
      (advanceRun m (calls.take (i + 1))).1._phase = .active ∧
      ∃ stI, (advanceRun m (calls.take (i + 1))).1._state = some stI ∧
        stI.current_segment_idx = ((i + 1 : ℕ) : ℤ) ∧
        ∀ b, calls.get? i = some b → stI.segment_started_at = b.now) ∧
    ((advanceRun m calls).1._phase = .complete) ∧
    (∃ stF, (advanceRun m calls).1._state = some stF ∧
      stF.segments_completed.map SegmentResult.segment_index
        = (List.range N).map Int.ofNat) ∧
    (∀ a', (advanceRun m calls).1.advance_segment a'
      = ((advanceRun m calls).1,
         .error (.workoutNotActive "Cannot advance: phase is complete"))) := by
  have hmain := advanceRun_spec w N hNlen calls 0 m st hph hst hw
    (by simpa using hidx) (by omega) (by omega)
  obtain ⟨hres, hwkt, ⟨stF, hstF, hwF, hmapF, _⟩, hcomp, _⟩ := hmain
  have hcompl : (advanceRun m calls).1._phase = .complete := hcomp (by omega)
  refine ⟨?_, ?_, ?_, hcompl, ⟨stF, hstF, ?_⟩, ?_⟩
  · intro i hi
    obtain ⟨r, hr, hwc, hnow⟩ := hres i (by omega)
    rw [show (0 : ℕ) + i + 1 = i + 1 by omega] at hnow
    exact ⟨r, hr, by rw [hwc, decide_eq_false (by omega : ¬(0 + i + 1 = N))],
      hnow⟩
  · obtain ⟨r, hr, hwc, hnow⟩ := hres (N - 1) (by omega)
    refine ⟨r, hr, by rw [hwc, decide_eq_true_eq.mpr (by omega)],
      by rw [hnow, List.get?_eq_none.mpr (by omega)]; rfl⟩
  · intro i hi
    have htk := advanceRun_spec w N hNlen (calls.take (i + 1)) 0 m st hph hst hw
      (by simpa using hidx) (by omega)
      (by rw [List.length_take]; omega)
    obtain ⟨_, _, ⟨stI, hstI, _, _, hactI⟩, _, hactph⟩ := htk
    have hlt : 0 + (calls.take (i + 1)).length < N := by
      rw [List.length_take]
      omega
    obtain ⟨hidxI, hlastI, _⟩ := hactI hlt
    refine ⟨hactph hlt, stI, hstI, ?_, ?_⟩
    · rw [hidxI]
      congr 1
      rw [List.length_take]
      omega
    · intro b hb
      apply hlastI
      rw [List.getLast?_eq_get?, List.length_take]
      have hlen1 : min (i + 1) calls.length = i + 1 := by omega
      rw [hlen1, show i + 1 - 1 = i by omega, List.get?_take (by omega)]
      exact hb
  · rw [hmapF, hdone, hcalls]
    simp [List.range_eq_range']
  · intro a'
    exact advance_complete_error _ a' hcompl

/-- C2: with the workout ACTIVE at index `k` and exactly `N - k` segments
remaining, any `N - k` `advance_segment` calls — the serialization order in
which the machine's single mutual-exclusion lock admits `N - k` concurrent
callers, each call's critical section being atomic — all succeed, and the
completed-segment indices afterwards are exactly `0..N-1` with no
duplicates. -/
theorem claim_C2_concurrent_serialized (m : WorkoutStateMachine)
    (st : WorkoutState) (w : Workout) (N k : ℕ)
    (calls : List WorkoutStateMachine.AdvanceArgs)
    (hph : m._phase = .active) (hst : m._state = some st)
    (hw : st.workout = w) (hidx : st.current_segment_idx = (k : ℤ))
    (hdone : st.segments_completed.map SegmentResult.segment_index
      = (List.range k).map Int.ofNat)
    (hNlen : w.segments.length = N) (hkN : k < N)
    (hcalls : calls.length = N - k) :
    (∀ i, i < calls.length →
      ∃ r, (advanceRun m calls).2.get? i = some (.ok r)) ∧
    ((advanceRun m calls).1._phase = .complete) ∧
    (∃ stF, (advanceRun m calls).1._state = some stF ∧
      stF.segments_completed.map SegmentResult.segment_index
        = (List.range N).map Int.ofNat ∧
      (stF.segments_completed.map SegmentResult.segment_index).Nodup) := by
  have hmain := advanceRun_spec w N hNlen calls k m st hph hst hw hidx hkN
    (by omega)
  obtain ⟨hres, _, ⟨stF, hstF, _, hmapF, _⟩, hcomp, _⟩ := hmain
  have hra : List.range' 0 k ++ List.range' k (N - k) = List.range' 0 N := by
    have h := List.range'_append_1 0 k (N - k)
    simp only [Nat.zero_add] at h
    rw [show N - k + k = N by omega] at h
    exact h
  have hmapN : stF.segments_completed.map SegmentResult.segment_index
      = (List.range N).map Int.ofNat := by
    rw [hmapF, hdone, hcalls, List.range_eq_range' k, ← List.map_append, hra,
      ← List.range_eq_range']
  refine ⟨?_, hcomp (by omega), stF, hstF, hmapN, ?_⟩
  · intro i hi
    obtain ⟨r, hr, _, _⟩ := hres i hi
    exact ⟨r, hr⟩
  · rw [hmapN]
    exact (List.nodup_range N).map (fun a b h => by injection h)

/-- Witness for C1: a started 2-segment workout advanced twice with concrete
metrics; the instantiated conclusion of the full-run theorem. -/
theorem claim_C1_witness :
    (∀ i, i + 1 < 2 →
      ∃ r, (advanceRun
          ⟨some ⟨"w2", [⟨.warmup, some 60, none, none, ""⟩,
                        ⟨.cooldown, some 30, none, none, ""⟩], "wkt_c1", 0, "claude"⟩,
           some ⟨⟨"w2", [⟨.warmup, some 60, none, none, ""⟩,
                         ⟨.cooldown, some 30, none, none, ""⟩], "wkt_c1", 0, "claude"⟩,
                 0, 100, 0, 100, [], .active⟩, .active⟩
          [⟨160, 10, 18, 30, false⟩, ⟨200, 5, 9, 28, true⟩]).2.get? i = some (.ok r) ∧
        r.workout_complete = false ∧
        r.now_on = ((⟨"w2", [⟨.warmup, some 60, none, none, ""⟩,
            ⟨.cooldown, some 30, none, none, ""⟩], "wkt_c1", 0, "claude"⟩ : Workout).segments.get?
              (i + 1)).map WorkoutSegment.to_dict) ∧
    (∃ r, (advanceRun
          ⟨some ⟨"w2", [⟨.warmup, some 60, none, none, ""⟩,
                        ⟨.cooldown, some 30, none, none, ""⟩], "wkt_c1", 0, "claude"⟩,
           some ⟨⟨"w2", [⟨.warmup, some 60, none, none, ""⟩,
                         ⟨.cooldown, some 30, none, none, ""⟩], "wkt_c1", 0, "claude"⟩,
                 0, 100, 0, 100, [], .active⟩, .active⟩
          [⟨160, 10, 18, 30, false⟩, ⟨200, 5, 9, 28, true⟩]).2.get? (2 - 1) = some (.ok r) ∧
      r.workout_complete = true ∧ r.now_on = none) ∧
    (∀ i, i + 1 < 2 →
      (advanceRun
          ⟨some ⟨"w2", [⟨.warmup, some 60, none, none, ""⟩,
                        ⟨.cooldown, some 30, none, none, ""⟩], "wkt_c1", 0, "claude"⟩,
           some ⟨⟨"w2", [⟨.warmup, some 60, none, none, ""⟩,
                         ⟨.cooldown, some 30, none, none, ""⟩], "wkt_c1", 0, "claude"⟩,
                 0, 100, 0, 100, [], .active⟩, .active⟩
          ([⟨160, 10, 18, 30, false⟩, ⟨200, 5, 9, 28, true⟩].take (i + 1))).1._phase = .active ∧
      ∃ stI, (advanceRun
          ⟨some ⟨"w2", [⟨.warmup, some 60, none, none, ""⟩,
                        ⟨.cooldown, some 30, none, none, ""⟩], "wkt_c1", 0, "claude"⟩,
           some ⟨⟨"w2", [⟨.warmup, some 60, none, none, ""⟩,
                         ⟨.cooldown, some 30, none, none, ""⟩], "wkt_c1", 0, "claude"⟩,
                 0, 100, 0, 100, [], .active⟩, .active⟩
          ([⟨160, 10, 18, 30, false⟩, ⟨200, 5, 9, 28, true⟩].take (i + 1))).1._state = some stI ∧
        stI.current_segment_idx = ((i + 1 : ℕ) : ℤ) ∧
        ∀ b, [(⟨160, 10, 18, 30, false⟩ : WorkoutStateMachine.AdvanceArgs),
              ⟨200, 5, 9, 28, true⟩].get? i = some b →
          stI.segment_started_at = b.now) ∧
    ((advanceRun
        ⟨some ⟨"w2", [⟨.warmup, some 60, none, none, ""⟩,
                      ⟨.cooldown, some 30, none, none, ""⟩], "wkt_c1", 0, "claude"⟩,
         some ⟨⟨"w2", [⟨.warmup, some 60, none, none, ""⟩,
                       ⟨.cooldown, some 30, none, none, ""⟩], "wkt_c1", 0, "claude"⟩,
               0, 100, 0, 100, [], .active⟩, .active⟩
        [⟨160, 10, 18, 30, false⟩, ⟨200, 5, 9, 28, true⟩]).1._phase = .complete) ∧
    (∃ stF, (advanceRun
        ⟨some ⟨"w2", [⟨.warmup, some 60, none, none, ""⟩,
                      ⟨.cooldown, some 30, none, none, ""⟩], "wkt_c1", 0, "claude"⟩,
         some ⟨⟨"w2", [⟨.warmup, some 60, none, none, ""⟩,
                       ⟨.cooldown, some 30, none, none, ""⟩], "wkt_c1", 0, "claude"⟩,
               0, 100, 0, 100, [], .active⟩, .active⟩
        [⟨160, 10, 18, 30, false⟩, ⟨200, 5, 9, 28, true⟩]).1._state = some stF ∧
      stF.segments_completed.map SegmentResult.segment_index
        = (List.range 2).map Int.ofNat) ∧
    (∀ a', (advanceRun
        ⟨some ⟨"w2", [⟨.warmup, some 60, none, none, ""⟩,
                      ⟨.cooldown, some 30, none, none, ""⟩], "wkt_c1", 0, "claude"⟩,
         some ⟨⟨"w2", [⟨.warmup, some 60, none, none, ""⟩,
                       ⟨.cooldown, some 30, none, none, ""⟩], "wkt_c1", 0, "claude"⟩,
               0, 100, 0, 100, [], .active⟩, .active⟩
        [⟨160, 10, 18, 30, false⟩, ⟨200, 5, 9, 28, true⟩]).1.advance_segment a'
      = ((advanceRun
          ⟨some ⟨"w2", [⟨.warmup, some 60, none, none, ""⟩,
                        ⟨.cooldown, some 30, none, none, ""⟩], "wkt_c1", 0, "claude"⟩,
           some ⟨⟨"w2", [⟨.warmup, some 60, none, none, ""⟩,
                         ⟨.cooldown, some 30, none, none, ""⟩], "wkt_c1", 0, "claude"⟩,
                 0, 100, 0, 100, [], .active⟩, .active⟩
          [⟨160, 10, 18, 30, false⟩, ⟨200, 5, 9, 28, true⟩]).1,
         .error (.workoutNotActive "Cannot advance: phase is complete"))) :=
  claim_C1_full_run _ _ _ 2 _ rfl rfl rfl rfl rfl rfl (by omega) rfl

/-- Witness for C2: a 3-segment workout at index 1 (segment 0 already
completed) with the two remaining serialized advance calls; both succeed,
and the completed indices are 0, 1, 2 with no duplicates. -/
theorem claim_C2_witness :
    (∀ i, i < ([(⟨300, 0, 0, 0, true⟩ : WorkoutStateMachine.AdvanceArgs),
                ⟨320, 0, 0, 0, true⟩] : List WorkoutStateMachine.AdvanceArgs).length →
      ∃ r, (advanceRun
          ⟨some ⟨"w3", [⟨.warmup, some 60, none, none, ""⟩,
                        ⟨.work, none, some 100, none, ""⟩,
                        ⟨.cooldown, some 30, none, none, ""⟩], "wkt_c2", 0, "claude"⟩,
           some ⟨⟨"w3", [⟨.warmup, some 60, none, none, ""⟩,
                         ⟨.work, none, some 100, none, ""⟩,
                         ⟨.cooldown, some 30, none, none, ""⟩], "wkt_c2", 0, "claude"⟩,
                 1, 50, 0, 0, [⟨0, .warmup, 0, 50, 50, 0, 0, 0, true⟩], .active⟩,
           .active⟩
          [⟨300, 0, 0, 0, true⟩, ⟨320, 0, 0, 0, true⟩]).2.get? i = some (.ok r)) ∧
    ((advanceRun
        ⟨some ⟨"w3", [⟨.warmup, some 60, none, none, ""⟩,
                      ⟨.work, none, some 100, none, ""⟩,
                      ⟨.cooldown, some 30, none, none, ""⟩], "wkt_c2", 0, "claude"⟩,
         some ⟨⟨"w3", [⟨.warmup, some 60, none, none, ""⟩,
                       ⟨.work, none, some 100, none, ""⟩,
                       ⟨.cooldown, some 30, none, none, ""⟩], "wkt_c2", 0, "claude"⟩,
               1, 50, 0, 0, [⟨0, .warmup, 0, 50, 50, 0, 0, 0, true⟩], .active⟩,
         .active⟩
        [⟨300, 0, 0, 0, true⟩, ⟨320, 0, 0, 0, true⟩]).1._phase = .complete) ∧
    (∃ stF, (advanceRun
        ⟨some ⟨"w3", [⟨.warmup, some 60, none, none, ""⟩,
                      ⟨.work, none, some 100, none, ""⟩,
                      ⟨.cooldown, some 30, none, none, ""⟩], "wkt_c2", 0, "claude"⟩,
         some ⟨⟨"w3", [⟨.warmup, some 60, none, none, ""⟩,
                       ⟨.work, none, some 100, none, ""⟩,
                       ⟨.cooldown, some 30, none, none, ""⟩], "wkt_c2", 0, "claude"⟩,
               1, 50, 0, 0, [⟨0, .warmup, 0, 50, 50, 0, 0, 0, true⟩], .active⟩,
         .active⟩
        [⟨300, 0, 0, 0, true⟩, ⟨320, 0, 0, 0, true⟩]).1._state = some stF ∧
      stF.segments_completed.map SegmentResult.segment_index
        = (List.range 3).map Int.ofNat ∧
      (stF.segments_completed.map SegmentResult.segment_index).Nodup) :=
  claim_C2_concurrent_serialized _ _ _ 3 1 _ rfl rfl rfl rfl
    (by with_unfolding_all rfl) rfl (by omega) rfl

theorem check_trigger_duration_eq (mon : TransitionMonitor) (seg : WorkoutSegment)
    (e dist : ℚ) (sw : Bool) (now : ℚ) :
    mon._check_trigger .duration_elapsed seg e dist sw now
      = ((durationSat seg e,
          if durationSat seg e then "duration_elapsed" else ""), mon) := by
  rcases hd : seg.target_duration_seconds with _ | d <;>
    simp only [TransitionMonitor._check_trigger, durationSat, hd]
  · rfl
  · by_cases hc : d ≠ 0 ∧ e ≥ (d : ℚ) <;> simp [hc]

theorem check_trigger_distance_eq (mon : TransitionMonitor) (seg : WorkoutSegment)
    (e dist : ℚ) (sw : Bool) (now : ℚ) :
    mon._check_trigger .distance_reached seg e dist sw now
      = ((distanceSat seg dist,
          if distanceSat seg dist then "distance_reached" else ""), mon) := by
  rcases hd : seg.target_distance_m with _ | d <;>
    simp only [TransitionMonitor._check_trigger, distanceSat, hd]
  · rfl
  · by_cases hc : d ≠ 0 ∧ dist ≥ (d : ℚ) <;> simp [hc]

theorem durationSat_mono (seg : WorkoutSegment) (e e' : ℚ) (h : e ≤ e')
    (hs : durationSat seg e = true) : durationSat seg e' = true := by
  rcases hd : seg.target_duration_seconds with _ | d <;>
    simp only [durationSat, hd] at hs ⊢
  · cases hs
  · rcases of_decide_eq_true hs with ⟨h1, h2⟩
    exact decide_eq_true ⟨h1, le_trans h2 h⟩

theorem stopped_flip_to_false (mon : TransitionMonitor) (now : ℚ)
    (hlast : mon._last_swimming_state = true)
    (hdeb : 0 < mon.swimming_debounce_seconds) :
    mon._is_swimming_stopped_stable now false
      = (false,
         { mon with
            _last_swimming_state := false,
            _swimming_state_changed_at := some now }) := by
  simp only [TransitionMonitor._is_swimming_stopped_stable, hlast]
  simp [sub_self, not_le.mpr hdeb]

theorem stopped_stable_under (mon : TransitionMonitor) (now : ℚ) (c : ℚ)
    (hlast : mon._last_swimming_state = false)
    (hch : mon._swimming_state_changed_at = some c)
    (hlt : now - c < mon.swimming_debounce_seconds) :
    mon._is_swimming_stopped_stable now false = (false, mon) := by
  simp only [TransitionMonitor._is_swimming_stopped_stable, hlast]
  simp [hch, not_le.mpr hlt]

theorem stopped_obs_true_last_true (mon : TransitionMonitor) (now : ℚ)
    (hlast : mon._last_swimming_state = true) :
    mon._is_swimming_stopped_stable now true = (false, mon) := by
  unfold TransitionMonitor._is_swimming_stopped_stable
  simp only [hlast]
  cases h : mon._swimming_state_changed_at <;> simp [h]

theorem stopped_obs_true_last_false (mon : TransitionMonitor) (now : ℚ)
    (hlast : mon._last_swimming_state = false) :
    mon._is_swimming_stopped_stable now true
      = (false,
         { mon with
            _last_swimming_state := true,
            _swimming_state_changed_at := some now }) := by
  simp [TransitionMonitor._is_swimming_stopped_stable, hlast]

theorem started_obs_false_last_true (mon : TransitionMonitor) (now : ℚ)
    (hlast : mon._last_swimming_state = true) :
    mon._is_swimming_started_stable now false
      = (false,
         { mon with
            _last_swimming_state := false,
            _swimming_state_changed_at := some now }) := by
  simp [TransitionMonitor._is_swimming_started_stable, hlast]

theorem started_obs_false_last_false (mon : TransitionMonitor) (now : ℚ)
    (hlast : mon._last_swimming_state = false) :
    mon._is_swimming_started_stable now false = (false, mon) := by
  unfold TransitionMonitor._is_swimming_started_stable
  simp only [hlast]
  cases h : mon._swimming_state_changed_at <;> simp [h]

theorem started_flip_to_true (mon : TransitionMonitor) (now : ℚ)
    (hlast : mon._last_swimming_state = false)
    (hdeb : 0 < mon.swimming_debounce_seconds) :
    mon._is_swimming_started_stable now true
      = (false,
         { mon with
            _last_swimming_state := true,
            _swimming_state_changed_at := some now }) := by
  simp only [TransitionMonitor._is_swimming_started_stable, hlast]
  simp [sub_self, not_le.mpr hdeb]

theorem check_reason_eq (mon : TransitionMonitor) (m : WorkoutStateMachine)
    (now : ℚ) (v : VisionState) (st : WorkoutState) (seg : WorkoutSegment)
    (hph : m._phase = .active) (hst : m._state = some st)
    (hseg : st.current_segment? = some seg)
    (hgrace : ¬(now - st.segment_started_at < mon.grace_period_seconds))
    (or : Option String) (mon' : TransitionMonitor)
    (hct : TransitionMonitor.checkTriggers mon (TRANSITION_RULES seg.type) seg
        (now - st.segment_started_at)
        ((↑(v.stroke_count - st.segment_stroke_count_start) : ℚ) * mon.dps_r)
        v.is_swimming now = (or, mon')) :
    ∃ res, TransitionMonitor.check mon m now v = .ok (res, mon') ∧
      res.reason = or := by
  rw [check_active_eq mon m now v st seg hph hst hseg hgrace, hct]
  cases or <;> exact ⟨_, rfl, rfl⟩

theorem ct_false_last_true (mon : TransitionMonitor) (seg : WorkoutSegment)
    (e dist now : ℚ)
    (hlast : mon._last_swimming_state = true)
    (hdeb : 0 < mon.swimming_debounce_seconds) :
    ∃ or mon',
      TransitionMonitor.checkTriggers mon (TRANSITION_RULES seg.type) seg
        e dist false now = (or, mon') ∧
      or ≠ some "swimming_stopped" ∧ or ≠ some "swimming_started" ∧
      ((mon' = mon ∧ (seg.type = .rest → durationSat seg e = true)) ∨
       mon' = { mon with
                 _last_swimming_state := false,
                 _swimming_state_changed_at := some now }) := by
  cases hty : seg.type <;> simp only [TRANSITION_RULES]
  case warmup | cooldown =>
    rw [checkTriggers_cons_eq, check_trigger_duration_eq]
    by_cases hdur : durationSat seg e
    · refine ⟨some "duration_elapsed", mon, by simp [hdur], by simp, by simp,
        Or.inl ⟨rfl, by simp [hty]⟩⟩
    · simp only [hdur, Bool.false_eq_true, if_false, if_neg]
      rw [checkTriggers_cons_eq]
      simp only [TransitionMonitor._check_trigger,
        stopped_flip_to_false mon now hlast hdeb]
      exact ⟨none, _, by simp [TransitionMonitor.checkTriggers], by simp, by simp,
        Or.inr rfl⟩
  case work =>
    rw [checkTriggers_cons_eq, check_trigger_duration_eq]
    by_cases hdur : durationSat seg e
    · refine ⟨some "duration_elapsed", mon, by simp [hdur], by simp, by simp,
        Or.inl ⟨rfl, by simp [hty]⟩⟩
    · simp only [hdur, Bool.false_eq_true, if_false, if_neg]
      rw [checkTriggers_cons_eq, check_trigger_distance_eq]
      by_cases hdist : distanceSat seg dist
      · refine ⟨some "distance_reached", mon, by simp [hdur, hdist], by simp,
          by simp, Or.inl ⟨rfl, by simp [hty]⟩⟩
      · simp only [hdist, Bool.false_eq_true, if_false, if_neg]
        rw [checkTriggers_cons_eq]
        simp only [TransitionMonitor._check_trigger,
          stopped_flip_to_false mon now hlast hdeb]
        exact ⟨none, _, by simp [TransitionMonitor.checkTriggers], by simp,
          by simp, Or.inr rfl⟩
  case rest =>
    rw [checkTriggers_cons_eq, check_trigger_duration_eq]
    by_cases hdur : durationSat seg e
    · refine ⟨some "duration_elapsed", mon, by simp [hdur], by simp, by simp,
        Or.inl ⟨rfl, fun _ => hdur⟩⟩
    · simp only [hdur, Bool.false_eq_true, if_false, if_neg]
      rw [checkTriggers_cons_eq]
      simp only [TransitionMonitor._check_trigger,
        started_obs_false_last_true mon now hlast]
      exact ⟨none, _, by simp [TransitionMonitor.checkTriggers], by simp, by simp,
        Or.inr rfl⟩

theorem ct_false_last_false (mon : TransitionMonitor) (seg : WorkoutSegment)
    (e dist now c : ℚ)
    (hlast : mon._last_swimming_state = false)
    (hch : mon._swimming_state_changed_at = some c)
    (hlt : now - c < mon.swimming_debounce_seconds) :
    ∃ or, TransitionMonitor.checkTriggers mon (TRANSITION_RULES seg.type) seg
        e dist false now = (or, mon) ∧
      or ≠ some "swimming_stopped" ∧ or ≠ some "swimming_started" := by
  cases hty : seg.type <;> simp only [TRANSITION_RULES]
  case warmup | cooldown =>
    rw [checkTriggers_cons_eq, check_trigger_duration_eq]
    by_cases hdur : durationSat seg e
    · exact ⟨some "duration_elapsed", by simp [hdur], by simp, by simp⟩
    · simp only [hdur, Bool.false_eq_true, if_false, if_neg]
      rw [checkTriggers_cons_eq]
      simp only [TransitionMonitor._check_trigger,
        stopped_stable_under mon now c hlast hch hlt]
      exact ⟨none, by simp [TransitionMonitor.checkTriggers], by simp, by simp⟩
  case work =>
    rw [checkTriggers_cons_eq, check_trigger_duration_eq]
    by_cases hdur : durationSat seg e
    · exact ⟨some "duration_elapsed", by simp [hdur], by simp, by simp⟩
    · simp only [hdur, Bool.false_eq_true, if_false, if_neg]
      rw [checkTriggers_cons_eq, check_trigger_distance_eq]
      by_cases hdist : distanceSat seg dist
      · exact ⟨some "distance_reached", by simp [hdist], by simp, by simp⟩
      · simp only [hdist, Bool.false_eq_true, if_false, if_neg]
        rw [checkTriggers_cons_eq]
        simp only [TransitionMonitor._check_trigger,
          stopped_stable_under mon now c hlast hch hlt]
        exact ⟨none, by simp [TransitionMonitor.checkTriggers], by simp, by simp⟩
  case rest =>
    rw [checkTriggers_cons_eq, check_trigger_duration_eq]
    by_cases hdur : durationSat seg e
    · exact ⟨some "duration_elapsed", by simp [hdur], by simp, by simp⟩
    · simp only [hdur, Bool.false_eq_true, if_false, if_neg]
      rw [checkTriggers_cons_eq]
      simp only [TransitionMonitor._check_trigger,
        started_obs_false_last_false mon now hlast]
      exact ⟨none, by simp [TransitionMonitor.checkTriggers], by simp, by simp⟩

theorem ct_true_last_false (mon : TransitionMonitor) (seg : WorkoutSegment)
    (e dist now : ℚ)
    (hlast : mon._last_swimming_state = false)
    (hdeb : 0 < mon.swimming_debounce_seconds) :
    ∃ or mon', TransitionMonitor.checkTriggers mon (TRANSITION_RULES seg.type) seg
        e dist true now = (or, mon') ∧
      or ≠ some "swimming_stopped" ∧ or ≠ some "swimming_started" := by
  cases hty : seg.type <;> simp only [TRANSITION_RULES]
  case warmup | cooldown =>
    rw [checkTriggers_cons_eq, check_trigger_duration_eq]
    by_cases hdur : durationSat seg e
    · exact ⟨some "duration_elapsed", mon, by simp [hdur], by simp, by simp⟩
    · simp only [hdur, Bool.false_eq_true, if_false, if_neg]
      rw [checkTriggers_cons_eq]
      simp only [TransitionMonitor._check_trigger,
        stopped_obs_true_last_false mon now hlast]
      exact ⟨none,
        { mon with
           _last_swimming_state := true,
           _swimming_state_changed_at := some now },
        by simp [TransitionMonitor.checkTriggers], by simp, by simp⟩
  case work =>
    rw [checkTriggers_cons_eq, check_trigger_duration_eq]
    by_cases hdur : durationSat seg e
    · exact ⟨some "duration_elapsed", mon, by simp [hdur], by simp, by simp⟩
    · simp only [hdur, Bool.false_eq_true, if_false, if_neg]
      rw [checkTriggers_cons_eq, check_trigger_distance_eq]
      by_cases hdist : distanceSat seg dist
      · exact ⟨some "distance_reached", mon, by simp [hdist], by simp, by simp⟩
      · simp only [hdist, Bool.false_eq_true, if_false, if_neg]
        rw [checkTriggers_cons_eq]
        simp only [TransitionMonitor._check_trigger,
          stopped_obs_true_last_false mon now hlast]
        exact ⟨none,
          { mon with
             _last_swimming_state := true,
             _swimming_state_changed_at := some now },
          by simp [TransitionMonitor.checkTriggers], by simp, by simp⟩
  case rest =>
    rw [checkTriggers_cons_eq, check_trigger_duration_eq]
    by_cases hdur : durationSat seg e
    · exact ⟨some "duration_elapsed", mon, by simp [hdur], by simp, by simp⟩
    · simp only [hdur, Bool.false_eq_true, if_false, if_neg]
      rw [checkTriggers_cons_eq]
      simp only [TransitionMonitor._check_trigger,
        started_flip_to_true mon now hlast hdeb]
      exact ⟨none,
        { mon with
           _last_swimming_state := true,
           _swimming_state_changed_at := some now },
        by simp [TransitionMonitor.checkTriggers], by simp, by simp⟩

theorem ct_true_last_true (mon : TransitionMonitor) (seg : WorkoutSegment)
    (e dist now : ℚ)
    (hlast : mon._last_swimming_state = true)
    (hrest : seg.type = .rest → durationSat seg e = true) :
    ∃ or mon', TransitionMonitor.checkTriggers mon (TRANSITION_RULES seg.type) seg
        e dist true now = (or, mon') ∧
      or ≠ some "swimming_stopped" ∧ or ≠ some "swimming_started" := by
  cases hty : seg.type <;> simp only [TRANSITION_RULES]
  case warmup | cooldown =>
    rw [checkTriggers_cons_eq, check_trigger_duration_eq]
    by_cases hdur : durationSat seg e
    · exact ⟨some "duration_elapsed", mon, by simp [hdur], by simp, by simp⟩
    · simp only [hdur, Bool.false_eq_true, if_false, if_neg]
      rw [checkTriggers_cons_eq]
      simp only [TransitionMonitor._check_trigger,
        stopped_obs_true_last_true mon now hlast]
      exact ⟨none, mon, by simp [TransitionMonitor.checkTriggers], by simp, by simp⟩
  case work =>
    rw [checkTriggers_cons_eq, check_trigger_duration_eq]
    by_cases hdur : durationSat seg e
    · exact ⟨some "duration_elapsed", mon, by simp [hdur], by simp, by simp⟩
    · simp only [hdur, Bool.false_eq_true, if_false, if_neg]
      rw [checkTriggers_cons_eq, check_trigger_distance_eq]
      by_cases hdist : distanceSat seg dist
      · exact ⟨some "distance_reached", mon, by simp [hdist], by simp, by simp⟩
      · simp only [hdist, Bool.false_eq_true, if_false, if_neg]
        rw [checkTriggers_cons_eq]
        simp only [TransitionMonitor._check_trigger,
          stopped_obs_true_last_true mon now hlast]
        exact ⟨none, mon, by simp [TransitionMonitor.checkTriggers], by simp, by simp⟩
  case rest =>
    rw [checkTriggers_cons_eq, check_trigger_duration_eq]
    rw [hrest hty]
    exact ⟨some "duration_elapsed", mon, by simp, by simp, by simp⟩

theorem c4_window_aux (m : WorkoutStateMachine) (st : WorkoutState)
    (seg : WorkoutSegment)
    (hph : m._phase = .active) (hst : m._state = some st)
    (hseg : st.current_segment? = some seg)
    (t1 t2 D G : ℚ) (hdeb : 0 < D) (hwin : t2 - t1 < D)
    (hg1 : st.segment_started_at + G ≤ t1) (ht12 : t1 ≤ t2) :
    ∀ (mids : List (ℚ × VisionState)) (mon : TransitionMonitor),
      mon.swimming_debounce_seconds = D → mon.grace_period_seconds = G →
      ((mon._last_swimming_state = true ∧
        (seg.type = .rest → durationSat seg (t1 - st.segment_started_at) = true)) ∨
       (mon._last_swimming_state = false ∧
        ∃ c, t1 ≤ c ∧ mon._swimming_state_changed_at = some c)) →
      (∀ c ∈ mids, (c.2).is_swimming = false ∧ t1 ≤ c.1 ∧ c.1 ≤ t2) →
      ∀ (v2 : VisionState), v2.is_swimming = true →
      ∀ (results : List CheckResult) (monF : TransitionMonitor),
      runChecks mon m (mids ++ [(t2, v2)]) = .ok (results, monF) →
      ∀ r ∈ results,
        r.reason ≠ some "swimming_stopped" ∧ r.reason ≠ some "swimming_started" := by
  intro mids
  induction mids with
  | nil =>
    intro mon hD hG hinv _ v2 hv2 results monF hok
    simp only [List.nil_append] at hok
    obtain ⟨rA, monA, rs, hchk, hrest, hres⟩ :=
      runChecks_cons_ok mon m t2 v2 [] results monF hok
    simp only [runChecks, Except.ok.injEq, Prod.mk.injEq] at hrest
    subst hres
    have hgr : ¬(t2 - st.segment_started_at < mon.grace_period_seconds) := by
      rw [hG]
      intro h
      linarith
    rcases hinv with ⟨hlast, hrestdur⟩ | ⟨hlast, c, hc1, hch⟩
    · obtain ⟨or, mon', hct, hn1, hn2⟩ := ct_true_last_true mon seg
        (t2 - st.segment_started_at)
        ((↑(v2.stroke_count - st.segment_stroke_count_start) : ℚ) * mon.dps_r)
        t2 hlast
        (fun hty => durationSat_mono seg _ _ (by linarith) (hrestdur hty))
      obtain ⟨res, hcheck, hreason⟩ := check_reason_eq mon m t2 v2 st seg
        hph hst hseg hgr or mon' (by rw [hv2]; exact hct)
      rw [hchk] at hcheck
      injection hcheck with hpair
      injection hpair with h1 h2
      intro r hr
      rcases List.mem_cons.mp hr with rfl | hmem
      · rw [h1, hreason]
        exact ⟨hn1, hn2⟩
      · rw [← hrest.1] at hmem
        cases hmem
    · obtain ⟨or, mon', hct, hn1, hn2⟩ := ct_true_last_false mon seg
        (t2 - st.segment_started_at)
        ((↑(v2.stroke_count - st.segment_stroke_count_start) : ℚ) * mon.dps_r)
        t2 hlast (hD ▸ hdeb)
      obtain ⟨res, hcheck, hreason⟩ := check_reason_eq mon m t2 v2 st seg
        hph hst hseg hgr or mon' (by rw [hv2]; exact hct)
      rw [hchk] at hcheck
      injection hcheck with hpair
      injection hpair with h1 h2
      intro r hr
      rcases List.mem_cons.mp hr with rfl | hmem
      · rw [h1, hreason]
        exact ⟨hn1, hn2⟩
      · rw [← hrest.1] at hmem
        cases hmem
  | cons c0 mids' ih =>
    intro mon hD hG hinv hmids v2 hv2 results monF hok
    obtain ⟨τ, v⟩ := c0
    obtain ⟨hv, ht1τ, hτt2⟩ := hmids (τ, v) (List.mem_cons_self _ _)
    simp only [List.cons_append] at hok
    obtain ⟨r0, mon1, rs, hchk, hrest, hres⟩ :=
      runChecks_cons_ok mon m τ v (mids' ++ [(t2, v2)]) results monF hok
    subst hres
    have hgr : ¬(τ - st.segment_started_at < mon.grace_period_seconds) := by
      rw [hG]
      intro h
      linarith
    have hmids' : ∀ c ∈ mids', (c.2).is_swimming = false ∧ t1 ≤ c.1 ∧ c.1 ≤ t2 :=
      fun c hc => hmids c (List.mem_cons_of_mem _ hc)
    rcases hinv with ⟨hlast, hrestdur⟩ | ⟨hlast, c, hc1, hch⟩
    · obtain ⟨or, mon', hct, hn1, hn2, hupd⟩ := ct_false_last_true mon seg
        (τ - st.segment_started_at)
        ((↑(v.stroke_count - st.segment_stroke_count_start) : ℚ) * mon.dps_r)
        τ hlast (hD ▸ hdeb)
      obtain ⟨res, hcheck, hreason⟩ := check_reason_eq mon m τ v st seg
        hph hst hseg hgr or mon' (by rw [hv]; exact hct)
      rw [hchk] at hcheck
      injection hcheck with hpair
      injection hpair with h1 h2
      intro r hr
      rcases List.mem_cons.mp hr with rfl | hmem
      · rw [h1, hreason]
        exact ⟨hn1, hn2⟩
      · rcases hupd with ⟨hmon', _⟩ | hmon'
        · refine ih mon1 ?_ ?_ ?_ hmids' v2 hv2 rs monF hrest r hmem
          · rw [h2, hmon', hD]
          · rw [h2, hmon', hG]
          · rw [h2, hmon']
            exact Or.inl ⟨hlast, hrestdur⟩
        · refine ih mon1 ?_ ?_ ?_ hmids' v2 hv2 rs monF hrest r hmem
          · rw [h2, hmon', hD]
          · rw [h2, hmon', hG]
          · rw [h2, hmon']
            exact Or.inr ⟨rfl, τ, ht1τ, rfl⟩
    · obtain ⟨or, hct, hn1, hn2⟩ := ct_false_last_false mon seg
        (τ - st.segment_started_at)
        ((↑(v.stroke_count - st.segment_stroke_count_start) : ℚ) * mon.dps_r)
        τ c hlast hch (by rw [hD]; linarith)
      obtain ⟨res, hcheck, hreason⟩ := check_reason_eq mon m τ v st seg
        hph hst hseg hgr or mon (by rw [hv]; exact hct)
      rw [hchk] at hcheck
      injection hcheck with hpair
      injection hpair with h1 h2
      intro r hr
      rcases List.mem_cons.mp hr with rfl | hmem
      · rw [h1, hreason]
        exact ⟨hn1, hn2⟩
      · refine ih mon1 ?_ ?_ ?_ hmids' v2 hv2 rs monF hrest r hmem
        · rw [h2, hD]
        · rw [h2, hG]
        · rw [h2]
          exact Or.inr ⟨hlast, c, hc1, hch⟩

/-- C4: during an ACTIVE segment, with the monitor remembering
`is_swimming = true`, a single-sample flicker — a `check()` reading `false`
at `t1`, any further `false` readings, then a reading `true` at `t2`, with
`t2 - t1` below `swimming_debounce_seconds` (and every reading past the
grace period, so each reading is observed) — no call in that window reports `"swimming_stopped"` or `"swimming_started"`: a value must
stay stable for the debounce window after its last observed change before
either debounced trigger fires. -/
theorem claim_C4_flicker_never_fires (mon : TransitionMonitor)
    (m : WorkoutStateMachine) (st : WorkoutState) (seg : WorkoutSegment)
    (hph : m._phase = .active) (hst : m._state = some st)
    (hseg : st.current_segment? = some seg)
    (hlast : mon._last_swimming_state = true)
    (hdeb : 0 < mon.swimming_debounce_seconds)
    (t1 t2 : ℚ) (v1 v2 : VisionState) (mids : List (ℚ × VisionState))
    (hv1 : v1.is_swimming = false) (hv2 : v2.is_swimming = true)
    (hmids : ∀ c ∈ mids, (c.2).is_swimming = false ∧ t1 ≤ c.1 ∧ c.1 ≤ t2)
    (ht12 : t1 ≤ t2) (hwin : t2 - t1 < mon.swimming_debounce_seconds)
    (hg1 : st.segment_started_at + mon.grace_period_seconds ≤ t1)
    (results : List CheckResult) (monF : TransitionMonitor)
    (hok : runChecks mon m ((t1, v1) :: (mids ++ [(t2, v2)])) = .ok (results, monF)) :
    ∀ r ∈ results,
      r.reason ≠ some "swimming_stopped" ∧ r.reason ≠ some "swimming_started" := by
  obtain ⟨r0, mon1, rs, hchk, hrest, hres⟩ :=
    runChecks_cons_ok mon m t1 v1 (mids ++ [(t2, v2)]) results monF hok
  subst hres
  have hgr : ¬(t1 - st.segment_started_at < mon.grace_period_seconds) := by
    intro h
    linarith
  obtain ⟨or, mon', hct, hn1, hn2, hupd⟩ := ct_false_last_true mon seg
    (t1 - st.segment_started_at)
    ((↑(v1.stroke_count - st.segment_stroke_count_start) : ℚ) * mon.dps_r)
    t1 hlast hdeb
  obtain ⟨res, hcheck, hreason⟩ := check_reason_eq mon m t1 v1 st seg
    hph hst hseg hgr or mon' (by rw [hv1]; exact hct)
  rw [hchk] at hcheck
  injection hcheck with hpair
  injection hpair with h1 h2
  intro r hr
  rcases List.mem_cons.mp hr with rfl | hmem
  · rw [h1, hreason]
    exact ⟨hn1, hn2⟩
  · rcases hupd with ⟨hmon', hrestdur⟩ | hmon'
    · refine c4_window_aux m st seg hph hst hseg t1 t2
        mon.swimming_debounce_seconds mon.grace_period_seconds hdeb hwin hg1 ht12
        mids mon1 ?_ ?_ ?_ hmids v2 hv2 rs monF hrest r hmem
      · rw [h2, hmon']
      · rw [h2, hmon']
      · rw [h2, hmon']
        exact Or.inl ⟨hlast, hrestdur⟩
    · refine c4_window_aux m st seg hph hst hseg t1 t2
        mon.swimming_debounce_seconds mon.grace_period_seconds hdeb hwin hg1 ht12
        mids mon1 ?_ ?_ ?_ hmids v2 hv2 rs monF hrest r hmem
      · rw [h2, hmon']
      · rw [h2, hmon']
      · rw [h2, hmon']
        exact Or.inr ⟨rfl, t1, le_refl t1, rfl⟩

/-- Witness for C4 at the spec's own scenario: debounce 2 s, a flip
true→false at t=10 and back to true at t=11 (within 1 s), one false reading
in between; none of the three checks reports a debounced trigger. -/
theorem claim_C4_witness :
    runChecks ⟨9/5, 5, 2, true, some 6⟩
        ⟨none, some ⟨⟨"w", [⟨.warmup, none, none, none, ""⟩], "wkt_4", 0, "claude"⟩,
                     0, 0, 0, 0, [], .active⟩, .active⟩
        [(10, ⟨false, 0, 0⟩), (21/2, ⟨false, 0, 0⟩), (11, ⟨true, 0, 0⟩)]
      = .ok ([⟨false, none, some ⟨10, 0, 0, false⟩⟩,
              ⟨false, none, some ⟨10, 0, 0, false⟩⟩,
              ⟨false, none, some ⟨11, 0, 0, true⟩⟩],
             ⟨9/5, 5, 2, true, some 11⟩) ∧
    ∀ r ∈ [(⟨false, none, some ⟨10, 0, 0, false⟩⟩ : CheckResult),
           ⟨false, none, some ⟨10, 0, 0, false⟩⟩,
           ⟨false, none, some ⟨11, 0, 0, true⟩⟩],
      r.reason ≠ some "swimming_stopped" ∧ r.reason ≠ some "swimming_started" :=
  ⟨by with_unfolding_all rfl,
   claim_C4_flicker_never_fires ⟨9/5, 5, 2, true, some 6⟩
     ⟨none, some ⟨⟨"w", [⟨.warmup, none, none, none, ""⟩], "wkt_4", 0, "claude"⟩,
                  0, 0, 0, 0, [], .active⟩, .active⟩
     ⟨⟨"w", [⟨.warmup, none, none, none, ""⟩], "wkt_4", 0, "claude"⟩,
      0, 0, 0, 0, [], .active⟩
     ⟨.warmup, none, none, none, ""⟩
     rfl rfl (by with_unfolding_all rfl) rfl (by norm_num)
     10 11 ⟨false, 0, 0⟩ ⟨true, 0, 0⟩ [(21/2, ⟨false, 0, 0⟩)]
     rfl rfl
     (by
       intro c hc
       rw [List.mem_singleton] at hc
       subst hc
       exact ⟨rfl, by norm_num, by norm_num⟩)
     (by norm_num) (by norm_num) (by norm_num)
     [⟨false, none, some ⟨10, 0, 0, false⟩⟩,
      ⟨false, none, some ⟨10, 0, 0, false⟩⟩,
      ⟨false, none, some ⟨11, 0, 0, true⟩⟩]
     ⟨9/5, 5, 2, true, some 11⟩
     (by with_unfolding_all rfl)⟩

theorem mem_insertDesc (l : List Workout) (x a : Workout) :
    a ∈ TemplateStorage.insertDesc l x ↔ a = x ∨ a ∈ l := by
  induction l with
  | nil => simp [TemplateStorage.insertDesc]
  | cons y ys ih =>
    by_cases hc : y.created_at ≥ x.created_at <;>
      simp [TemplateStorage.insertDesc, hc, ih] <;> tauto

theorem sorted_insertDesc (l : List Workout) (x : Workout)
    (h : l.Sorted (fun a b => b.created_at ≤ a.created_at)) :
    (TemplateStorage.insertDesc l x).Sorted
      (fun a b => b.created_at ≤ a.created_at) := by
  induction l with
  | nil => simp [TemplateStorage.insertDesc]
  | cons y ys ih =>
    rw [List.sorted_cons] at h
    by_cases hc : y.created_at ≥ x.created_at
    · rw [show TemplateStorage.insertDesc (y :: ys) x
          = y :: TemplateStorage.insertDesc ys x from by
        simp [TemplateStorage.insertDesc, hc]]
      rw [List.sorted_cons]
      refine ⟨?_, ih h.2⟩
      intro b hb
      rcases (mem_insertDesc ys x b).mp hb with rfl | hmem
      · exact hc
      · exact h.1 b hmem
    · rw [show TemplateStorage.insertDesc (y :: ys) x
          = x :: y :: ys from by simp [TemplateStorage.insertDesc, hc]]
      rw [List.sorted_cons]
      refine ⟨?_, by rw [List.sorted_cons]; exact h⟩
      intro b hb
      rcases List.mem_cons.mp hb with rfl | hmem
      · exact le_of_lt (not_le.mp hc)
      · exact le_trans (h.1 b hmem) (le_of_lt (not_le.mp hc))

theorem sorted_foldl_insertDesc (ws : List Workout) : ∀ acc : List Workout,
    acc.Sorted (fun a b => b.created_at ≤ a.created_at) →
    (ws.foldl TemplateStorage.insertDesc acc).Sorted
      (fun a b => b.created_at ≤ a.created_at) := by
  induction ws with
  | nil => intro acc h; simpa using h
  | cons x xs ih =>
    intro acc h
    exact ih (TemplateStorage.insertDesc acc x) (sorted_insertDesc acc x h)

theorem sorted_sortDesc (ws : List Workout) :
    (TemplateStorage.sortDesc ws).Sorted
      (fun a b => b.created_at ≤ a.created_at) :=
  sorted_foldl_insertDesc ws [] (by simp)

theorem from_dict_ok_jobj (v : JVal) (w : Workout)
    (h : Workout.from_dict v = .ok w) : ∃ fields, v = .jobj fields := by
  cases v <;>
    first
      | exact ⟨_, rfl⟩
      | simp [Workout.from_dict, JVal.indexStr, JVal.index, bind, Except.bind] at h

theorem from_dict_keyError_jobj (v : JVal) (k : String)
    (h : Workout.from_dict v = .error (.keyError k)) :
    ∃ fields, v = .jobj fields := by
  cases v <;>
    first
      | exact ⟨_, rfl⟩
      | simp [Workout.from_dict, JVal.indexStr, JVal.index, bind, Except.bind] at h

theorem except_bind_ok {α β : Type} (x : Except PyError α)
    (f : α → Except PyError β) (b : β) :
    (x >>= f) = .ok b ↔ ∃ a, x = .ok a ∧ f a = .ok b := by
  cases x <;> simp [bind, Except.bind]

theorem indexStr_get? (fields : List (String × JVal)) (k s : String)
    (h : (JVal.jobj fields).indexStr k = .ok s) :
    (JVal.jobj fields).get? k = .ok (some (.jstr s)) := by
  simp only [JVal.indexStr, JVal.index, JVal.get?, bind, Except.bind] at h ⊢
  rcases hlook : fields.lookup k with _ | x <;> rw [hlook] at h
  · cases h
  · cases x <;> simp at h
    case jstr s' =>
      rw [h]

theorem from_dict_ok_id (v : JVal) (w : Workout)
    (h : Workout.from_dict v = .ok w) :
    v.get? "workout_id" = .ok (some (.jstr w.workout_id)) := by
  obtain ⟨fields, rfl⟩ := from_dict_ok_jobj v w h
  rw [Workout.from_dict] at h
  simp only [except_bind_ok] at h
  obtain ⟨wid, hwid, h⟩ := h
  obtain ⟨nm, hnm, h⟩ := h
  obtain ⟨segsv, hsegsv, h⟩ := h
  cases segsv with
  | jlist xs =>
    simp only [except_bind_ok] at h
    obtain ⟨segs, hsegs, h⟩ := h
    obtain ⟨cav, hcav, h⟩ := h
    obtain ⟨ca, hca, h⟩ := h
    obtain ⟨cbv, hcbv, h⟩ := h
    rcases cbv with _ | cb2
    · simp only [except_bind_ok] at h
      obtain ⟨y1, _, h⟩ := h
      injection h with h'
      subst h'
      exact indexStr_get? fields "workout_id" wid hwid
    · cases cb2 with
      | jstr s2 =>
        simp only [except_bind_ok] at h
        obtain ⟨y1, _, h⟩ := h
        injection h with h'
        subst h'
        exact indexStr_get? fields "workout_id" wid hwid
      | jnull => simp [bind, Except.bind] at h
      | jbool b => simp [bind, Except.bind] at h
      | jint n => simp [bind, Except.bind] at h
      | jrat q => simp [bind, Except.bind] at h
      | jdate t => simp [bind, Except.bind] at h
      | jlist l => simp [bind, Except.bind] at h
      | jobj o => simp [bind, Except.bind] at h
  | jnull => simp [bind, Except.bind] at h
  | jbool b => simp [bind, Except.bind] at h
  | jint n => simp [bind, Except.bind] at h
  | jrat q => simp [bind, Except.bind] at h
  | jstr s => simp [bind, Except.bind] at h
  | jdate t => simp [bind, Except.bind] at h
  | jobj o => simp [bind, Except.bind] at h

theorem ok_bind {α β : Type} (a : α) (f : α → Except PyError β) :
    (Except.ok a >>= f) = f a := rfl

theorem pure_bind_except {α β : Type} (a : α) (f : α → Except PyError β) :
    ((pure a : Except PyError α) >>= f) = f a := rfl

theorem template_fold_ok (files : List TemplateFile)
    (hfiles : ∀ f ∈ files,
      (∃ v w, f = .jsonFile v ∧ Workout.from_dict v = .ok w) ∨
      (∃ raw, f = .notJson raw) ∨
      (∃ v k, f = .jsonFile v ∧ Workout.from_dict v = .error (.keyError k))) :
    ∀ acc : List Workout,
      List.foldlM (fun acc f => do
        match ← TemplateStorage.listOne f with
        | some w => pure (acc ++ [w])
        | none => pure acc) acc files = .ok (acc ++ decodedValids files) := by
  induction files with
  | nil => intro acc; simp [decodedValids]; rfl
  | cons f fs ih =>
    intro acc
    rw [List.foldlM_cons]
    have hfs : ∀ f ∈ fs, _ := fun f hf => hfiles f (List.mem_cons_of_mem _ hf)
    rcases hfiles f (List.mem_cons_self _ _) with ⟨v, w, rfl, hv⟩ | ⟨raw, rfl⟩ |
      ⟨v, k, rfl, hv⟩
    · rw [show TemplateStorage.listOne (.jsonFile v) = .ok (some w) from by
        simp [TemplateStorage.listOne, hv]]
      rw [ok_bind]
      dsimp only
      rw [pure_bind_except, ih hfs (acc ++ [w])]
      simp [decodedValids, hv, Except.toOption]
    · rw [show TemplateStorage.listOne (.notJson raw) = .ok none from rfl]
      rw [ok_bind]
      dsimp only
      rw [pure_bind_except, ih hfs acc]
      simp [decodedValids]
    · rw [show TemplateStorage.listOne (.jsonFile v) = .ok none from by
        simp [TemplateStorage.listOne, hv]]
      rw [ok_bind]
      dsimp only
      rw [pure_bind_except, ih hfs acc]
      simp [decodedValids, hv, Except.toOption]

theorem getOne_ok (f : TemplateFile) (id : String)
    (hf : (∃ v w, f = .jsonFile v ∧ Workout.from_dict v = .ok w) ∨
      (∃ raw, f = .notJson raw) ∨
      (∃ v k, f = .jsonFile v ∧ Workout.from_dict v = .error (.keyError k))) :
    ∃ r, TemplateStorage.getOne f id = .ok r ∧
      ((r = none ∧ ∀ v w, f = TemplateFile.jsonFile v →
          Workout.from_dict v = .ok w → w.workout_id ≠ id) ∨
       (∃ w v, f = .jsonFile v ∧ Workout.from_dict v = .ok w ∧
          r = some w ∧ w.workout_id = id)) := by
  rcases hf with ⟨v, w, rfl, hv⟩ | ⟨raw, rfl⟩ | ⟨v, k, rfl, hv⟩
  · have hid := from_dict_ok_id v w hv
    simp only [TemplateStorage.getOne, hid]
    by_cases hmatch : w.workout_id = id
    · rw [if_pos hmatch, hv]
      exact ⟨some w, rfl, Or.inr ⟨w, v, rfl, hv, rfl, hmatch⟩⟩
    · rw [if_neg hmatch]
      refine ⟨none, rfl, Or.inl ⟨rfl, ?_⟩⟩
      intro v' w' hv' hw'
      injection hv' with hv'
      subst hv'
      rw [hv] at hw'
      injection hw' with hw'
      subst hw'
      exact hmatch
  · refine ⟨none, rfl, Or.inl ⟨rfl, ?_⟩⟩
    intro v' w' hv' _
    cases hv'
  · have hnone : ∀ v' w', TemplateFile.jsonFile v = TemplateFile.jsonFile v' →
        Workout.from_dict v' = .ok w' → w'.workout_id ≠ id := by
      intro v' w' hv' hw'
      injection hv' with hv'
      subst hv'
      rw [hv] at hw'
      cases hw'
    obtain ⟨fields, hfields⟩ := from_dict_keyError_jobj v k hv
    subst hfields
    simp only [TemplateStorage.getOne, JVal.get?]
    rcases hlook : fields.lookup "workout_id" with _ | x
    · exact ⟨none, rfl, Or.inl ⟨rfl, hnone⟩⟩
    · cases x <;> try exact ⟨none, rfl, Or.inl ⟨rfl, hnone⟩⟩
      case jstr s =>
        dsimp only
        by_cases hmatch : s = id
        · rw [if_pos hmatch, hv]
          exact ⟨none, rfl, Or.inl ⟨rfl, hnone⟩⟩
        · rw [if_neg hmatch]
          exact ⟨none, rfl, Or.inl ⟨rfl, hnone⟩⟩

theorem get_templates_ok (files : List TemplateFile) (id : String)
    (hfiles : ∀ f ∈ files,
      (∃ v w, f = .jsonFile v ∧ Workout.from_dict v = .ok w) ∨
      (∃ raw, f = .notJson raw) ∨
      (∃ v k, f = .jsonFile v ∧ Workout.from_dict v = .error (.keyError k))) :
    ∃ r, TemplateStorage.get files id = .ok r ∧
      ((r = none ∧ ∀ v w, TemplateFile.jsonFile v ∈ files →
          Workout.from_dict v = .ok w → w.workout_id ≠ id) ∨
       (∃ w v, (TemplateFile.jsonFile v) ∈ files ∧
          Workout.from_dict v = .ok w ∧ r = some w ∧ w.workout_id = id)) := by
  induction files with
  | nil =>
    refine ⟨none, rfl, Or.inl ⟨rfl, ?_⟩⟩
    intro v w hmem
    cases hmem
  | cons f fs ih =>
    obtain ⟨r0, hr0, hprop⟩ := getOne_ok f id (hfiles f (List.mem_cons_self _ _))
    rcases hprop with ⟨rfl, hnone0⟩ | ⟨w, v, rfl, hv, rfl, hid⟩
    · obtain ⟨r1, hr1, hprop1⟩ :=
        ih (fun f hf => hfiles f (List.mem_cons_of_mem _ hf))
      refine ⟨r1, ?_, ?_⟩
      · simp only [TemplateStorage.get, hr0]
        exact hr1
      · rcases hprop1 with ⟨rfl, hnone1⟩ | ⟨w, v, hmem, hv, rfl, hid⟩
        · refine Or.inl ⟨rfl, ?_⟩
          intro v w hmem hw
          rcases List.mem_cons.mp hmem with heq | hmem'
          · exact hnone0 v w heq.symm hw
          · exact hnone1 v w hmem' hw
        · exact Or.inr ⟨w, v, List.mem_cons_of_mem _ hmem, hv, rfl, hid⟩
    · refine ⟨some w, ?_, Or.inr ⟨w, v, List.mem_cons_self _ _, hv, rfl, hid⟩⟩
      simp only [TemplateStorage.get, hr0]

/-- C8 amended: over a template directory whose entries are valid workout
records, files that are not JSON at all (`json.JSONDecodeError` is caught),
or JSON records with a missing required key (`KeyError` is caught), `list`
returns all decodable workouts newest-first truncated to the limit, and
`get` returns a decodable workout matching the requested id whenever the
directory holds one (it returns `None` only when no valid entry matches),
with neither raising.  (This is the boundary the code actually implements:
a JSON record whose field values are malformed — e.g. an invalid
`created_at` string, raising `ValueError` — or an unreadable file, raising
`OSError`, is outside the `except (json.JSONDecodeError, KeyError)` clause
and aborts the whole operation; see the counterexample.) -/
theorem claim_C8_amended_skip_corrupt (files : List TemplateFile)
    (limit : ℕ) (id : String)
    (hfiles : ∀ f ∈ files,
      (∃ v w, f = .jsonFile v ∧ Workout.from_dict v = .ok w) ∨
      (∃ raw, f = .notJson raw) ∨
      (∃ v k, f = .jsonFile v ∧ Workout.from_dict v = .error (.keyError k))) :
    (TemplateStorage.list files limit
      = .ok ((TemplateStorage.sortDesc (decodedValids files)).take limit)) ∧
    (((TemplateStorage.sortDesc (decodedValids files)).take limit).Sorted
      (fun a b => b.created_at ≤ a.created_at)) ∧
    (∃ r, TemplateStorage.get files id = .ok r ∧
      ((r = none ∧ ∀ v w, TemplateFile.jsonFile v ∈ files →
          Workout.from_dict v = .ok w → w.workout_id ≠ id) ∨
       (∃ w v, (TemplateFile.jsonFile v) ∈ files ∧
          Workout.from_dict v = .ok w ∧ r = some w ∧ w.workout_id = id))) := by
  refine ⟨?_, ?_, get_templates_ok files id hfiles⟩
  · simp only [TemplateStorage.list]
    rw [template_fold_ok files hfiles [], ok_bind]
    simp
  · exact List.Pairwise.sublist (List.take_sublist _ _) (sorted_sortDesc _)

/-- C8 counterexample: a directory holding one valid record and one JSON
record with every key present but a malformed `created_at` value.  The
claim requires `list` to return the valid workout and `get` to not raise,
but both operations abort with the uncaught `ValueError` from
`datetime.fromisoformat`. -/
theorem claim_C8_counterexample :
    TemplateStorage.list
        [.jsonFile (Workout.to_dict ⟨"good", [], "wkt_good", 5, "claude"⟩),
         .jsonFile (.jobj [("workout_id", .jstr "wkt_bad"), ("name", .jstr "bad"),
            ("segments", .jlist []), ("created_at", .jstr "not-a-date")])] 10
      = .error .valueError ∧
    TemplateStorage.get
        [.jsonFile (Workout.to_dict ⟨"good", [], "wkt_good", 5, "claude"⟩),
         .jsonFile (.jobj [("workout_id", .jstr "wkt_bad"), ("name", .jstr "bad"),
            ("segments", .jlist []), ("created_at", .jstr "not-a-date")])] "wkt_bad"
      = .error .valueError :=
  ⟨by with_unfolding_all rfl, by with_unfolding_all rfl⟩

/-- Witness for the amended C8: a directory with two valid records (created
at 3 and 7), one non-JSON file and one JSON record missing its keys; `list`
returns exactly the two workouts newest-first, and `get` returns exactly
the requested workout (not `None`) despite the corrupt entries. -/
theorem claim_C8_witness :
    (TemplateStorage.list
        [.jsonFile (Workout.to_dict ⟨"a", [], "wkt_a", 3, "claude"⟩),
         .notJson "oops",
         .jsonFile (.jobj [("name", .jstr "x")]),
         .jsonFile (Workout.to_dict ⟨"b", [], "wkt_b", 7, "claude"⟩)] 10
      = .ok [⟨"b", [], "wkt_b", 7, "claude"⟩, ⟨"a", [], "wkt_a", 3, "claude"⟩]) ∧
    (TemplateStorage.get
        [.jsonFile (Workout.to_dict ⟨"a", [], "wkt_a", 3, "claude"⟩),
         .notJson "oops",
         .jsonFile (.jobj [("name", .jstr "x")]),
         .jsonFile (Workout.to_dict ⟨"b", [], "wkt_b", 7, "claude"⟩)] "wkt_b"
      = .ok (some ⟨"b", [], "wkt_b", 7, "claude"⟩)) := by
  have h := claim_C8_amended_skip_corrupt
    [.jsonFile (Workout.to_dict ⟨"a", [], "wkt_a", 3, "claude"⟩),
     .notJson "oops",
     .jsonFile (.jobj [("name", .jstr "x")]),
     .jsonFile (Workout.to_dict ⟨"b", [], "wkt_b", 7, "claude"⟩)] 10 "wkt_b" (by
      intro f hf
      simp only [List.mem_cons, List.mem_singleton] at hf
      rcases hf with rfl | rfl | rfl | rfl | hbad
      · exact Or.inl ⟨_, ⟨"a", [], "wkt_a", 3, "claude"⟩, rfl,
          workout_from_to_dict _⟩
      · exact Or.inr (Or.inl ⟨_, rfl⟩)
      · exact Or.inr (Or.inr ⟨_, "workout_id", rfl, by with_unfolding_all rfl⟩)
      · exact Or.inl ⟨_, ⟨"b", [], "wkt_b", 7, "claude"⟩, rfl,
          workout_from_to_dict _⟩
      · cases hbad)
  refine ⟨?_, ?_⟩
  · rw [h.1]
    with_unfolding_all rfl
  · obtain ⟨r, hr, hcase⟩ := h.2.2
    rcases hcase with ⟨rfl, hnone⟩ | ⟨w, v, hmem, hv, rfl, hid⟩
    · exact absurd rfl (hnone (Workout.to_dict ⟨"b", [], "wkt_b", 7, "claude"⟩)
        ⟨"b", [], "wkt_b", 7, "claude"⟩
        (List.mem_cons_of_mem _ (List.mem_cons_of_mem _ (List.mem_cons_of_mem _
          (List.mem_cons_self _ _))))
        (workout_from_to_dict _))
    · rcases List.mem_cons.mp hmem with heq | hmem2
      · injection heq with heq
        subst heq
        rw [workout_from_to_dict] at hv
        injection hv with hv
        subst hv
        exact absurd hid (by decide)
      rcases List.mem_cons.mp hmem2 with heq | hmem3
      · cases heq
      rcases List.mem_cons.mp hmem3 with heq | hmem4
      · injection heq with heq
        subst heq
        rw [show Workout.from_dict (.jobj [("name", JVal.jstr "x")])
            = .error (.keyError "workout_id") from by with_unfolding_all rfl]
          at hv
        cases hv
      rcases List.mem_cons.mp hmem4 with heq | hmem5
      · injection heq with heq
        subst heq
        rw [workout_from_to_dict] at hv
        injection hv with hv
        subst hv
        exact hr
      · cases hmem5
